import Mathlib

/-!
Verification of the per-connection realtime session engine of the gribe
speech-to-text gateway, shallowly embedded from its Go sources.

Conventions of the embedding:
* Go byte slices become `List Nat` (one entry per byte, values 0..255; byte
  values are never range-checked by the embedded code paths).
* Go `int` becomes `Int` (the embedded arithmetic stays far from 2^63, so
  overflow is immaterial); Go integer division on non-negative operands
  agrees with `Int` division.
* Mutating methods become functions from the receiver to the updated
  receiver (paired with the Go return value where there is one).
* `time.Time` watermarks are reduced to the only observation the code makes
  of them (`IsZero`), kept as a `Bool`.
* Mutexes serialize access in the source; the embedding is the serialized
  (sequential) semantics.
-/

namespace Gribe

/-! ## Audio buffer (domain.AudioBuffer)

Embedding of the buffer from the Go `domain` package: fields `Data`,
`committed`, `startTime` (tracked via its `IsZero` observation),
`speechStartMs`, `speechEndMs`, `maxSize`.  The `Lock` channel and `mu`
mutex only serialize access and have no sequential content. -/

structure AudioBuffer where
  data : List Nat
  committed : Bool
  startTimeSet : Bool
  speechStartMs : Int
  speechEndMs : Int
  maxSize : Int
  deriving DecidableEq, Repr

/-- `domain.ErrBufferFull`, the only error `Append` can return. -/
inductive BufErr
  | bufferFull
  deriving DecidableEq, Repr

/-- `AudioBuffer.Append`: rejects when `maxSize > 0` and the new length would
exceed `maxSize`, returning `ErrBufferFull` before touching any field;
otherwise concatenates and marks the start time as set. -/
def AudioBuffer.Append (ab : AudioBuffer) (d : List Nat) : AudioBuffer × Option BufErr :=
  if 0 < ab.maxSize ∧ ab.maxSize < (ab.data.length : Int) + (d.length : Int) then
    (ab, some BufErr.bufferFull)
  else
    ({ ab with data := ab.data ++ d, startTimeSet := true }, none)

/-- `AudioBuffer.SetMaxSize`. -/
def AudioBuffer.SetMaxSize (ab : AudioBuffer) (n : Int) : AudioBuffer :=
  { ab with maxSize := n }

/-- `AudioBuffer.GetMaxSize`. -/
def AudioBuffer.GetMaxSize (ab : AudioBuffer) : Int :=
  ab.maxSize

/-- `AudioBuffer.Commit`: returns a snapshot copy of the data and marks the
buffer committed. -/
def AudioBuffer.Commit (ab : AudioBuffer) : List Nat × AudioBuffer :=
  (ab.data, { ab with committed := true })

/-- `AudioBuffer.Clear`: resets data, committed flag, start time and the
speech-timing watermarks (the max size is kept). -/
def AudioBuffer.Clear (ab : AudioBuffer) : AudioBuffer :=
  { ab with
    data := []
    committed := false
    startTimeSet := false
    speechStartMs := 0
    speechEndMs := 0 }

/-- `AudioBuffer.GetSize`. -/
def AudioBuffer.GetSize (ab : AudioBuffer) : Int :=
  (ab.data.length : Int)

/-- `AudioBuffer.IsEmpty`. -/
def AudioBuffer.IsEmpty (ab : AudioBuffer) : Bool :=
  ab.data.length = 0

/-- `AudioBuffer.IsCommitted`. -/
def AudioBuffer.IsCommitted (ab : AudioBuffer) : Bool :=
  ab.committed

/-- `AudioBuffer.GetData` (returns a copy). -/
def AudioBuffer.GetData (ab : AudioBuffer) : List Nat :=
  ab.data

/-- `AudioBuffer.SetSpeechTimings`. -/
def AudioBuffer.SetSpeechTimings (ab : AudioBuffer) (startMs endMs : Int) : AudioBuffer :=
  { ab with speechStartMs := startMs, speechEndMs := endMs }

/-- `AudioBuffer.GetSpeechTimings`. -/
def AudioBuffer.GetSpeechTimings (ab : AudioBuffer) : Int × Int :=
  (ab.speechStartMs, ab.speechEndMs)

/-- `usecase.NewAudioBuffer`: fresh buffer, no size limit. -/
def NewAudioBuffer : AudioBuffer :=
  { data := []
    committed := false
    startTimeSet := false
    speechStartMs := 0
    speechEndMs := 0
    maxSize := 0 }

/-- `usecase.NewAudioBufferWithMaxSize`. -/
def NewAudioBufferWithMaxSize (maxSize : Int) : AudioBuffer :=
  NewAudioBuffer.SetMaxSize maxSize

/-! Operation alphabet for buffer sequences, used to state the invariant
claims over arbitrary call sequences. -/

inductive BufOp
  | append (d : List Nat)
  | commit
  | clear
  | setMaxSize (n : Int)
  deriving DecidableEq, Repr

/-- One buffer operation, discarding the returned values. -/
def BufOp.apply (ab : AudioBuffer) : BufOp → AudioBuffer
  | .append d => (ab.Append d).1
  | .commit => (ab.Commit).2
  | .clear => ab.Clear
  | .setMaxSize n => ab.SetMaxSize n

/-- A whole sequence of buffer operations. -/
def applyOps (ab : AudioBuffer) (ops : List BufOp) : AudioBuffer :=
  ops.foldl BufOp.apply ab

def BufOp.isSetMax : BufOp → Bool
  | .setMaxSize _ => true
  | _ => false

/-- Sequential appends, as in the commit scenario: stops at the first
failure, reporting whether every append succeeded. -/
def appendAll : AudioBuffer → List (List Nat) → AudioBuffer × Bool
  | ab, [] => (ab, true)
  | ab, b :: bs =>
    match ab.Append b with
    | (ab2, none) => appendAll ab2 bs
    | (ab2, some _) => (ab2, false)

/-! Helper lemmas about single buffer operations. -/

theorem Append_failed_frame (ab : AudioBuffer) (d : List Nat)
    (h : (ab.Append d).2.isSome) : (ab.Append d).1 = ab := by
  by_cases hc : 0 < ab.maxSize ∧ ab.maxSize < (ab.data.length : Int) + (d.length : Int)
  · simp [AudioBuffer.Append, hc]
  · simp [AudioBuffer.Append, hc] at h

theorem Append_ok_data (ab : AudioBuffer) (d : List Nat)
    (h : ¬(0 < ab.maxSize ∧ ab.maxSize < (ab.data.length : Int) + (d.length : Int))) :
    ab.Append d = ({ ab with data := ab.data ++ d, startTimeSet := true }, none) := by
  simp [AudioBuffer.Append, h]

/-- Size/cap invariant is preserved by every operation other than
`SetMaxSize`, and such operations do not change the cap. -/
theorem BufOp.apply_inv (ab : AudioBuffer) (op : BufOp) (hop : op.isSetMax = false)
    (hcap : 0 < ab.maxSize) (hsz : (ab.data.length : Int) ≤ ab.maxSize) :
    (op.apply ab).maxSize = ab.maxSize ∧
      ((op.apply ab).data.length : Int) ≤ (op.apply ab).maxSize := by
  cases op with
  | append d =>
    by_cases hc : 0 < ab.maxSize ∧ ab.maxSize < (ab.data.length : Int) + (d.length : Int)
    · simp [BufOp.apply, AudioBuffer.Append, hc, hsz]
    · have hle : (ab.data.length : Int) + (d.length : Int) ≤ ab.maxSize := by
        rcases not_and_or.mp hc with h | h
        · exact absurd hcap h
        · exact not_lt.mp h
      constructor
      · simp [BufOp.apply, AudioBuffer.Append, hc]
      · simp only [BufOp.apply, AudioBuffer.Append, if_neg hc, List.length_append]
        push_cast
        linarith
  | commit => simpa [BufOp.apply, AudioBuffer.Commit] using hsz
  | clear =>
    refine ⟨rfl, ?_⟩
    simp [BufOp.apply, AudioBuffer.Clear]
    exact le_of_lt hcap
  | setMaxSize n => simp [BufOp.isSetMax] at hop

theorem applyOps_inv (ops : List BufOp) (ab : AudioBuffer)
    (hops : ∀ op ∈ ops, op.isSetMax = false)
    (hcap : 0 < ab.maxSize) (hsz : (ab.data.length : Int) ≤ ab.maxSize) :
    (applyOps ab ops).maxSize = ab.maxSize ∧
      ((applyOps ab ops).data.length : Int) ≤ (applyOps ab ops).maxSize := by
  induction ops generalizing ab with
  | nil => exact ⟨rfl, hsz⟩
  | cons op ops ih =>
    have hop : op.isSetMax = false := hops op (List.mem_cons_self op ops)
    have hstep := BufOp.apply_inv ab op hop hcap hsz
    have hcap2 : 0 < (op.apply ab).maxSize := hstep.1 ▸ hcap
    have ih2 := ih (op.apply ab) (fun o ho => hops o (List.mem_cons_of_mem op ho)) hcap2 hstep.2
    refine ⟨?_, ih2.2⟩
    calc (applyOps (op.apply ab) ops).maxSize = (op.apply ab).maxSize := ih2.1
      _ = ab.maxSize := hstep.1

/-- Successful appends concatenate: if the existing data plus everything to
be appended fits under a positive cap, every append succeeds and the data is
the concatenation. -/
theorem appendAll_ok (bs : List (List Nat)) (ab : AudioBuffer)
    (hcap : 0 < ab.maxSize)
    (hsum : (ab.data.length : Int) + ((bs.map List.length).sum : Int) ≤ ab.maxSize) :
    appendAll ab bs =
      ({ ab with data := ab.data ++ bs.flatten,
                 startTimeSet := ab.startTimeSet || !bs.isEmpty }, true) := by
  induction bs generalizing ab with
  | nil => simp [appendAll]
  | cons b bs ih =>
    have hb : (ab.data.length : Int) + (b.length : Int) ≤ ab.maxSize := by
      have hnn : (0 : Int) ≤ ((bs.map List.length).sum : Int) := by positivity
      simp only [List.map_cons, List.sum_cons] at hsum
      push_cast at hsum hnn ⊢
      linarith
    have hnc : ¬(0 < ab.maxSize ∧ ab.maxSize < (ab.data.length : Int) + (b.length : Int)) := by
      rintro ⟨-, hlt⟩
      exact absurd hb (not_le.mpr hlt)
    have hstep := Append_ok_data ab b hnc
    have ih2 := ih { ab with data := ab.data ++ b, startTimeSet := true }
      (by simpa using hcap)
      (by
        simp only [List.length_append, List.map_cons, List.sum_cons] at hsum ⊢
        push_cast at hsum ⊢
        linarith)
    simp only [appendAll, hstep, ih2]
    simp [List.append_assoc]

/-- C3 as stated is false: `SetMaxSize` may lower the cap below the current
size.  Append 2 bytes under cap 2, then set the cap to 1: the cap is still
positive, yet the stored size (2) exceeds it. -/
theorem buffer_cap_counterexample :
    0 < (applyOps (NewAudioBufferWithMaxSize 2)
          [BufOp.append [0, 0], BufOp.setMaxSize 1]).maxSize ∧
      (applyOps (NewAudioBufferWithMaxSize 2)
          [BufOp.append [0, 0], BufOp.setMaxSize 1]).maxSize <
        ((applyOps (NewAudioBufferWithMaxSize 2)
          [BufOp.append [0, 0], BufOp.setMaxSize 1]).data.length : Int) := by
  decide

/-- C3 amended: for every sequence of `Append`, `Commit`, `Clear` operations
(no `SetMaxSize` after the cap is fixed) on a buffer whose cap is positive
and at least the current size, the size never exceeds the cap, and an
`Append` that fails with `buffer_full` leaves the whole observable buffer
state (data, size, committed flag, start-time and speech-timing watermarks)
exactly as it was before the failed call. -/
theorem buffer_cap_invariant (ab : AudioBuffer) (ops : List BufOp)
    (hcap : 0 < ab.maxSize)
    (hsz : (ab.data.length : Int) ≤ ab.maxSize)
    (hops : ∀ op ∈ ops, op.isSetMax = false) :
    ((applyOps ab ops).data.length : Int) ≤ (applyOps ab ops).maxSize ∧
      ∀ d, ((applyOps ab ops).Append d).2.isSome →
        ((applyOps ab ops).Append d).1 = applyOps ab ops := by
  refine ⟨(applyOps_inv ops ab hops hcap hsz).2, ?_⟩
  intro d hfail
  exact Append_failed_frame _ d hfail

/-- Witness for `buffer_cap_invariant` at a concrete input. -/
theorem buffer_cap_invariant_witness :
    ((applyOps (NewAudioBufferWithMaxSize 3) [BufOp.append [7], BufOp.commit]).data.length : Int) ≤
        (applyOps (NewAudioBufferWithMaxSize 3) [BufOp.append [7], BufOp.commit]).maxSize ∧
      ∀ d, ((applyOps (NewAudioBufferWithMaxSize 3)
              [BufOp.append [7], BufOp.commit]).Append d).2.isSome →
        ((applyOps (NewAudioBufferWithMaxSize 3)
            [BufOp.append [7], BufOp.commit]).Append d).1 =
          applyOps (NewAudioBufferWithMaxSize 3) [BufOp.append [7], BufOp.commit] :=
  buffer_cap_invariant (NewAudioBufferWithMaxSize 3) [BufOp.append [7], BufOp.commit]
    (by decide) (by decide) (by decide)

/-- C4: if the total length of `append(b₁), …, append(bₙ)` on a fresh buffer
stays within the positive cap, every append succeeds and a subsequent
`Commit` returns exactly the byte concatenation `b₁ ∥ … ∥ bₙ` and sets the
committed flag. -/
theorem commit_returns_concatenation (cap : Int) (bs : List (List Nat))
    (hcap : 0 < cap)
    (hsum : ((bs.map List.length).sum : Int) ≤ cap) :
    (appendAll (NewAudioBufferWithMaxSize cap) bs).2 = true ∧
      ((appendAll (NewAudioBufferWithMaxSize cap) bs).1.Commit).1 = bs.flatten ∧
      ((appendAll (NewAudioBufferWithMaxSize cap) bs).1.Commit).2.committed = true := by
  have h := appendAll_ok bs (NewAudioBufferWithMaxSize cap)
    (by simpa [NewAudioBufferWithMaxSize, NewAudioBuffer, AudioBuffer.SetMaxSize] using hcap)
    (by simpa [NewAudioBufferWithMaxSize, NewAudioBuffer, AudioBuffer.SetMaxSize] using hsum)
  rw [h]
  simp [AudioBuffer.Commit, NewAudioBufferWithMaxSize, NewAudioBuffer, AudioBuffer.SetMaxSize]

/-- Witness for `commit_returns_concatenation` at a concrete input. -/
theorem commit_returns_concatenation_witness :
    (appendAll (NewAudioBufferWithMaxSize 5) [[1, 2], [3]]).2 = true ∧
      ((appendAll (NewAudioBufferWithMaxSize 5) [[1, 2], [3]]).1.Commit).1 =
        ([[1, 2], [3]] : List (List Nat)).flatten ∧
      ((appendAll (NewAudioBufferWithMaxSize 5) [[1, 2], [3]]).1.Commit).2.committed = true :=
  commit_returns_concatenation 5 [[1, 2], [3]] (by decide) (by decide)

/-- C10: `Commit` changes only the committed flag — it returns the stored
bytes, leaves data, cap, start-time flag and speech-timing watermarks
untouched (`GetSize` is unchanged), and the stored bytes are removed only by
`Clear`.  (In the source the returned slice is a fresh `make`+`copy`, so
mutating it cannot alias the buffer; in this pure embedding the return value
is the snapshot `ab.data`.) -/
theorem commit_frame (ab : AudioBuffer) :
    (ab.Commit).1 = ab.data ∧
      (ab.Commit).2.data = ab.data ∧
      (ab.Commit).2.committed = true ∧
      (ab.Commit).2.maxSize = ab.maxSize ∧
      (ab.Commit).2.speechStartMs = ab.speechStartMs ∧
      (ab.Commit).2.speechEndMs = ab.speechEndMs ∧
      (ab.Commit).2.startTimeSet = ab.startTimeSet ∧
      (ab.Commit).2.GetSize = ab.GetSize ∧
      ((ab.Commit).2.Clear).data = [] := by
  simp [AudioBuffer.Commit, AudioBuffer.GetSize, AudioBuffer.Clear]

/-! ## Session configuration (domain.Session and friends)

Embedding of the configuration structs from the Go `domain` package.  Go
pointer fields (nil-able) become `Option`; nil-able slices become
`Option List` where the code distinguishes nil from empty, plain `List`
otherwise.  `float64` configuration values (thresholds, speeds,
temperatures) are carried as `Rat`: every value the code compares or copies
is passed through unchanged, so exact arithmetic is faithful here.
`interface{}` fields are carried abstractly with just the observations the
code makes of them. -/

structure TranscriptionConfig where
  model : String
  language : String
  prompt : String
  deriving DecidableEq, Repr

structure NoiseReduction where
  type : String
  deriving DecidableEq, Repr

structure AudioFormat where
  type : String
  rate : Int
  deriving DecidableEq, Repr

structure TurnDetection where
  type : String
  threshold : Rat
  prefixPaddingMs : Int
  silenceDurationMs : Int
  idleTimeoutMs : Option Int
  createResponse : Bool
  interruptResponse : Bool
  deriving DecidableEq, Repr

structure AudioInput where
  format : Option AudioFormat
  transcription : Option TranscriptionConfig
  noiseReduction : Option NoiseReduction
  turnDetection : Option TurnDetection
  deriving DecidableEq, Repr

structure AudioOutput where
  format : Option AudioFormat
  voice : String
  speed : Rat
  deriving DecidableEq, Repr

structure AudioConfig where
  input : Option AudioInput
  output : Option AudioOutput
  deriving DecidableEq, Repr

structure Tool where
  type : String
  name : String
  description : String
  deriving DecidableEq, Repr

/-- `Session.MaxOutputTokens` is `interface{}` holding `"inf"` or a number. -/
inductive MaxTokens
  | inf
  | num (n : Int)
  deriving DecidableEq, Repr

structure VoiceSettings where
  voice : String
  speed : Rat
  deriving DecidableEq, Repr

structure Session where
  type : String
  object : String
  id : String
  model : String
  outputModalities : List String
  instructions : String
  tools : Option (List Tool)
  toolChoice : String
  maxOutputTokens : Option MaxTokens
  temperature : Rat
  tracing : Option String
  prompt : Option String
  expiresAt : Int
  audio : Option AudioConfig
  Include : List String
  voiceSettings : Option VoiceSettings
  deriving DecidableEq, Repr

/-- `domain.NewSession` (the default realtime config).  `expiresAt` is
`time.Now()+1h` in the source and is passed in here. -/
def NewSession (sessionID model : String) (expiresAt : Int) : Session :=
  { type := "realtime"
    object := "realtime.session"
    id := sessionID
    model := model
    outputModalities := ["audio"]
    instructions := "You are a helpful, witty, and friendly AI assistant."
    tools := some []
    toolChoice := "auto"
    maxOutputTokens := some MaxTokens.inf
    temperature := (8 : Rat) / 10
    tracing := none
    prompt := none
    expiresAt := expiresAt
    audio := some
      { input := some
          { format := some { type := "audio/pcm", rate := 24000 }
            transcription := none
            noiseReduction := none
            turnDetection := some
              { type := "server_vad"
                threshold := (5 : Rat) / 10
                prefixPaddingMs := 300
                silenceDurationMs := 200
                idleTimeoutMs := none
                createResponse := true
                interruptResponse := true } }
        output := some
          { format := some { type := "audio/pcm", rate := 24000 }
            voice := "alloy"
            speed := 1 } }
    Include := []
    voiceSettings := none }

/-- `domain.NewTranscriptionSession` (the STT-only default config). -/
def NewTranscriptionSession (sessionID model language : String) (expiresAt : Int) : Session :=
  { type := "transcription"
    object := "realtime.session"
    id := sessionID
    model := model
    outputModalities := ["text"]
    instructions := ""
    tools := some []
    toolChoice := "none"
    maxOutputTokens := some MaxTokens.inf
    temperature := 0
    tracing := none
    prompt := none
    expiresAt := expiresAt
    audio := some
      { input := some
          { format := some { type := "audio/pcm", rate := 24000 }
            transcription := some { model := model, language := language, prompt := "" }
            noiseReduction := some { type := "near_field" }
            turnDetection := some
              { type := "server_vad"
                threshold := (5 : Rat) / 10
                prefixPaddingMs := 300
                silenceDurationMs := 500
                idleTimeoutMs := none
                createResponse := false
                interruptResponse := false } }
        output := none }
    Include := []
    voiceSettings := none }

/-! ## `SessionManager.UpdateSession` merge (usecase package)

The merge body, acting on the session's `Config`.  Each Go
`if updates.X != nil / != "" / > 0 { state.Config.X = updates.X }` becomes
the corresponding conditional update. -/

/-- The inner audio merge of `UpdateSession`: the four input sub-configs are
replaced wholesale when provided; the output config is replaced wholesale
when provided. -/
def mergeAudio (cur upd : AudioConfig) : AudioConfig :=
  let input :=
    match upd.input with
    | none => cur.input
    | some ui =>
      match cur.input with
      | none => some ui
      | some ci => some
          { format := match ui.format with | some f => some f | none => ci.format
            transcription :=
              match ui.transcription with | some t => some t | none => ci.transcription
            noiseReduction :=
              match ui.noiseReduction with | some n => some n | none => ci.noiseReduction
            turnDetection :=
              match ui.turnDetection with | some t => some t | none => ci.turnDetection }
  let output :=
    match upd.output with
    | some o => some o
    | none => cur.output
  { input := input, output := output }

/-- `SessionManager.UpdateSession`: merge of the non-empty fields of the
inbound config over the current config (the session lookup and the
`LastActivity` touch are outside the configuration semantics). -/
def UpdateSession (cur updates : Session) : Session :=
  let s := cur
  let s := if updates.type ≠ "" then { s with type := updates.type } else s
  let s := if updates.instructions ≠ "" then { s with instructions := updates.instructions } else s
  let s := match updates.tools with
    | some t => { s with tools := some t }
    | none => s
  let s := if updates.toolChoice ≠ "" then { s with toolChoice := updates.toolChoice } else s
  let s := match updates.maxOutputTokens with
    | some m => { s with maxOutputTokens := some m }
    | none => s
  let s := if 0 < updates.temperature then { s with temperature := updates.temperature } else s
  let s := match updates.audio with
    | none => s
    | some ua =>
      match s.audio with
      | none => { s with audio := some ua }
      | some ca => { s with audio := some (mergeAudio ca ua) }
  let s := if 0 < updates.outputModalities.length then
      { s with outputModalities := updates.outputModalities } else s
  let s := if 0 < updates.Include.length then { s with Include := updates.Include } else s
  s

/-- A `session.update` payload that provides nothing but
`audio.input.transcription`, as decoded from
`{"session":{"audio":{"input":{"transcription": t}}}}`. -/
def updateOnlyTranscription (t : TranscriptionConfig) : Session :=
  { type := ""
    object := ""
    id := ""
    model := ""
    outputModalities := []
    instructions := ""
    tools := none
    toolChoice := ""
    maxOutputTokens := none
    temperature := 0
    tracing := none
    prompt := none
    expiresAt := 0
    audio := some
      { input := some
          { format := none
            transcription := some t
            noiseReduction := none
            turnDetection := none }
        output := none }
    Include := []
    voiceSettings := none }

/-- C2 as stated is false: an update providing only
`audio.input.transcription.language = "en"` replaces the whole transcription
sub-config, so the model does not keep its previous value "zipformer" — it
becomes the update's (empty) model. -/
theorem session_update_counterexample :
    ((UpdateSession (NewTranscriptionSession "sess_1" "zipformer" "id" 0)
          (updateOnlyTranscription { model := "", language := "en", prompt := "" })).audio.bind
        (fun a => a.input) |>.bind (fun i => i.transcription)) =
      some { model := "", language := "en", prompt := "" } ∧
      ("" : String) ≠ "zipformer" := by
  constructor
  · rfl
  · decide

/-- C2 amended: `session.update` merges at sub-object granularity.  When the
update provides only `audio.input.transcription = t`, the merged config
carries exactly `t` there (so `language` becomes the provided value and
`model` becomes the update's model, empty when unspecified), while the other
audio input sub-configs, the audio output config, and every non-audio field
keep their previous values. -/
theorem session_update_merge (cur : Session) (a : AudioConfig) (i : AudioInput)
    (t : TranscriptionConfig)
    (ha : cur.audio = some a) (hi : a.input = some i) :
    (UpdateSession cur (updateOnlyTranscription t)).audio =
        some { input := some { i with transcription := some t }, output := a.output } ∧
      (UpdateSession cur (updateOnlyTranscription t)).type = cur.type ∧
      (UpdateSession cur (updateOnlyTranscription t)).instructions = cur.instructions ∧
      (UpdateSession cur (updateOnlyTranscription t)).tools = cur.tools ∧
      (UpdateSession cur (updateOnlyTranscription t)).toolChoice = cur.toolChoice ∧
      (UpdateSession cur (updateOnlyTranscription t)).maxOutputTokens = cur.maxOutputTokens ∧
      (UpdateSession cur (updateOnlyTranscription t)).temperature = cur.temperature ∧
      (UpdateSession cur (updateOnlyTranscription t)).outputModalities = cur.outputModalities ∧
      (UpdateSession cur (updateOnlyTranscription t)).Include = cur.Include ∧
      (UpdateSession cur (updateOnlyTranscription t)).model = cur.model ∧
      (UpdateSession cur (updateOnlyTranscription t)).id = cur.id := by
  obtain ⟨ty, ob, sid, mo, om, ins, tls, tc, mot, tem, tra, pr, ex, au, inc, vs⟩ := cur
  obtain ⟨ain, aout⟩ := a
  simp only at ha hi
  subst ha
  subst hi
  exact ⟨rfl, rfl, rfl, rfl, rfl, rfl, rfl, rfl, rfl, rfl, rfl⟩

/-- The S3 scenario's current config: STT defaults with language "id". -/
def c2Cur : Session := NewTranscriptionSession "sess_1" "zipformer" "id" 0

/-- The S3 scenario's update payload: only `language = "en"`. -/
def c2T : TranscriptionConfig := { model := "", language := "en", prompt := "" }

/-- Witness for `session_update_merge`: the S3 scenario input, defaults with
language "id" and an update providing only `language = "en"`. -/
theorem session_update_merge_witness :
    (UpdateSession c2Cur (updateOnlyTranscription c2T)).model = c2Cur.model ∧
      ((UpdateSession c2Cur (updateOnlyTranscription c2T)).audio.bind (fun a => a.input)
          |>.bind (fun i => i.transcription)) = some c2T := by
  obtain ⟨h1, h2⟩ := session_update_merge c2Cur _ _ c2T rfl rfl
  refine ⟨h2.2.2.2.2.2.2.2.2.1, ?_⟩
  rw [h1]
  rfl

/-! ## VAD segmenter (usecase.SimpleVADProvider)

The energy comparison: the source computes `rms := sqrt(sumSquares/n)` in
float64 and compares `rms > threshold*1000`.  `sqrt` is strictly monotone
and both sides are non-negative for thresholds ≥ 0, so the comparison is
expressed below in exact arithmetic by squaring; for a negative threshold it
is always true since `rms ≥ 0`.  (Per-chunk float64 accumulation of int16
squares is exact below 2^53, i.e. for any chunk shorter than 2^23 samples.)
-/

structure VADConfig where
  type : String
  threshold : Rat
  prefixPaddingMs : Int
  silenceDurationMs : Int
  idleTimeoutMs : Int
  sampleRate : Int
  channels : Int
  deriving DecidableEq, Repr

/-- `domain.NewDefaultVADConfig`. -/
def NewDefaultVADConfig : VADConfig :=
  { type := "server_vad"
    threshold := (5 : Rat) / 10
    prefixPaddingMs := 300
    silenceDurationMs := 500
    idleTimeoutMs := 0
    sampleRate := 24000
    channels := 1 }

/-- `domain.VADConfigFromTurnDetection` on a non-nil `TurnDetection`
(`IdleTimeoutMs` is `interface{}` in the source, numeric when present,
defaulting to 0). -/
def VADConfigFromTurnDetection (td : TurnDetection) : VADConfig :=
  { type := td.type
    threshold := td.threshold
    prefixPaddingMs := td.prefixPaddingMs
    silenceDurationMs := td.silenceDurationMs
    idleTimeoutMs := td.idleTimeoutMs.getD 0
    sampleRate := 24000
    channels := 1 }

inductive VADEventType
  | speechStarted
  | speechStopped
  | timeout
  deriving DecidableEq, Repr

structure VADEvent where
  type : VADEventType
  startMs : Int
  endMs : Int
  audioData : List Nat
  deriving DecidableEq, Repr

/-- `SimpleVADProvider` state: the `events` channel has capacity 10, the
`ctx`/`cancel` pair only backs `Close` and carries no further state. -/
structure VADState where
  config : VADConfig
  events : List VADEvent
  isSpeaking : Bool
  silentSamples : Int
  audioBuffer : List Nat
  startMs : Int
  currentMs : Int
  closed : Bool
  deriving DecidableEq, Repr

/-- `usecase.NewSimpleVADProvider` (nil config falls back to the default). -/
def NewSimpleVADProvider (config : Option VADConfig) : VADState :=
  { config := config.getD NewDefaultVADConfig
    events := []
    isSpeaking := false
    silentSamples := 0
    audioBuffer := []
    startMs := 0
    currentMs := 0
    closed := false }

/-- The little-endian int16 samples of a byte sequence, as read by
`calculateEnergy`'s loop (a trailing odd byte is ignored). -/
def pcm16Samples : List Nat → List Int
  | b0 :: b1 :: rest =>
    (if b0 + 256 * b1 < 32768 then ((b0 + 256 * b1 : Nat) : Int)
     else ((b0 + 256 * b1 : Nat) : Int) - 65536) :: pcm16Samples rest
  | _ => []

/-- Sum of squared samples, the quantity under `calculateEnergy`'s root. -/
def sumSquares (audio : List Nat) : Int :=
  ((pcm16Samples audio).map (fun s => s * s)).sum

/-- The source's `energy > threshold*1000` comparison
(`energy = sqrt(sumSquares/n)` with `n` the sample count, 0 when fewer than
2 bytes), expressed in exact arithmetic: for `threshold ≥ 0` both sides are
non-negative and `sqrt` is strictly monotone, so
`sqrt(S/n) > t*1000  ↔  S > t²·10⁶·n  ↔  S·t.den² > t.num²·10⁶·n`;
for `threshold < 0` (i.e. `t.num < 0`) the comparison holds since the root
is non-negative.  Everything is over ℤ so the condition evaluates. -/
def energyExceeds (audio : List Nat) (threshold : Rat) : Bool :=
  if audio.length < 2 then decide (threshold.num < 0)
  else if threshold.num < 0 then true
  else decide (sumSquares audio * (threshold.den : Int) * (threshold.den : Int) >
    threshold.num * threshold.num * 1000000 * ((audio.length / 2 : Nat) : Int))

/-- `sendEvent`: dropped when closed or when the channel (capacity 10) is
full. -/
def VADState.sendEvent (v : VADState) (e : VADEvent) : VADState :=
  if v.closed then v
  else if v.events.length < 10 then { v with events := v.events ++ [e] }
  else v

/-- The audio-time duration `ProcessAudio` assigns to one chunk:
`(samplesInChunk * 1000) / sampleRate` with 2 bytes per sample, in integer
arithmetic. -/
def chunkDur (cfg : VADConfig) (c : List Nat) : Int :=
  (((c.length / 2 : Nat) : Int) * 1000) / cfg.sampleRate

/-- `SimpleVADProvider.ProcessAudio`.  Returns the updated state and the
trace of events handed to `sendEvent` by this call (the channel itself is
updated inside the state with the capacity-10 drop semantics). -/
def VADState.processAudio (v : VADState) (audio : List Nat) : VADState × List VADEvent :=
  if v.closed then (v, [])
  else if audio.length = 0 then (v, [])
  else
    let energyHigh := energyExceeds audio v.config.threshold
    let chunkDurationMs : Int := chunkDur v.config audio
    let wasSpeaking := v.isSpeaking
    let step : VADState × List VADEvent :=
      if energyHigh then
        let va := { v with silentSamples := 0 }
        if va.isSpeaking = false then
          let vb := { va with isSpeaking := true, startMs := va.currentMs }
          let prefixStart :=
            if vb.startMs - vb.config.prefixPaddingMs < 0 then 0
            else vb.startMs - vb.config.prefixPaddingMs
          let e : VADEvent :=
            { type := .speechStarted, startMs := prefixStart, endMs := 0, audioData := [] }
          ({ vb.sendEvent e with audioBuffer := vb.audioBuffer ++ audio }, [e])
        else
          ({ va with audioBuffer := va.audioBuffer ++ audio }, ([] : List VADEvent))
      else
        if v.isSpeaking then
          let va := { v with silentSamples := v.silentSamples + chunkDurationMs,
                             audioBuffer := v.audioBuffer ++ audio }
          if va.config.silenceDurationMs ≤ va.silentSamples then
            let vb := { va with isSpeaking := false }
            let e : VADEvent :=
              { type := .speechStopped, startMs := vb.startMs, endMs := vb.currentMs,
                audioData := vb.audioBuffer }
            ({ vb.sendEvent e with audioBuffer := [] }, [e])
          else (va, [])
        else (v, [])
    let v2 : VADState := { step.1 with currentMs := step.1.currentMs + chunkDurationMs }
    if decide (0 < v2.config.idleTimeoutMs) && !wasSpeaking && !v2.isSpeaking then
      if v2.config.idleTimeoutMs ≤ v2.currentMs then
        let e : VADEvent := { type := .timeout, startMs := 0, endMs := v2.currentMs, audioData := [] }
        (v2.sendEvent e, step.2 ++ [e])
      else (v2, step.2)
    else (v2, step.2)

/-- Feeding a whole sequence of chunks, concatenating the emission traces. -/
def runVAD (v : VADState) : List (List Nat) → VADState × List VADEvent
  | [] => (v, [])
  | c :: cs =>
    let r1 := v.processAudio c
    let r2 := runVAD r1.1 cs
    (r2.1, r1.2 ++ r2.2)

/-! ## Conversation, items, responses (domain package) -/

structure FunctionCall where
  id : String
  name : String
  arguments : String
  deriving DecidableEq, Repr

structure ContentPart where
  type : String
  text : String
  audio : String
  transcript : String
  functionCall : Option FunctionCall
  format : String
  deriving DecidableEq, Repr

structure Item where
  id : String
  object : String
  type : String
  status : String
  role : String
  content : List ContentPart
  createdAt : Int
  deriving DecidableEq, Repr

/-- `domain.NewItem`. -/
def NewItem (itemID itemType role : String) : Item :=
  { id := itemID
    object := "realtime.item"
    type := itemType
    status := "in_progress"
    role := role
    content := []
    createdAt := 0 }

/-- `domain.ConversationState`: `Items` is a Go map keyed by item ID, kept
here as an association list with map (overwrite) insertion; `Order` is the
ordered ID list. -/
structure ConversationState where
  id : String
  items : List (String × Item)
  order : List String
  deriving DecidableEq, Repr

/-- `domain.NewConversationState`. -/
def NewConversationState (conversationID : String) : ConversationState :=
  { id := conversationID, items := [], order := [] }

/-- Map insertion: replaces the entry for the key or adds one. -/
def setItem : List (String × Item) → String → Item → List (String × Item)
  | [], k, v => [(k, v)]
  | (k0, v0) :: rest, k, v =>
    if k0 = k then (k, v) :: rest else (k0, v0) :: setItem rest k v

/-- Map lookup. -/
def getItemAssoc : List (String × Item) → String → Option Item
  | [], _ => none
  | (k0, v0) :: rest, k => if k0 = k then some v0 else getItemAssoc rest k

/-- Map deletion (at most one entry per key exists). -/
def delItemAssoc : List (String × Item) → String → List (String × Item)
  | [], _ => []
  | (k0, v0) :: rest, k =>
    if k0 = k then rest else (k0, v0) :: delItemAssoc rest k

/-- `ConversationState.AddItem`. -/
def ConversationState.AddItem (cs : ConversationState) (item : Item) : ConversationState :=
  { cs with items := setItem cs.items item.id item, order := cs.order ++ [item.id] }

/-- `ConversationState.GetItem`. -/
def ConversationState.GetItem (cs : ConversationState) (itemID : String) : Option Item :=
  getItemAssoc cs.items itemID

/-- `ConversationState.DeleteItem`: removes the map entry and the first
occurrence in the order, reporting whether the item existed. -/
def ConversationState.DeleteItem (cs : ConversationState) (itemID : String) :
    ConversationState × Bool :=
  match getItemAssoc cs.items itemID with
  | none => (cs, false)
  | some _ =>
    ({ cs with items := delItemAssoc cs.items itemID, order := cs.order.erase itemID }, true)

structure TokenDetails where
  textTokens : Int
  audioTokens : Int
  imageTokens : Int
  cachedTokens : Int
  deriving DecidableEq, Repr

structure Usage where
  totalTokens : Int
  inputTokens : Int
  outputTokens : Int
  inputTokenDetails : Option TokenDetails
  outputTokenDetails : Option TokenDetails
  deriving DecidableEq, Repr

structure ResponseAudio where
  output : Option AudioOutput
  deriving DecidableEq, Repr

/-- `domain.Response` (the `StatusDetails`/`Metadata` interface fields are
only ever nil on the embedded paths and are dropped). -/
structure Response where
  object : String
  id : String
  status : String
  output : List Item
  conversationID : String
  outputModalities : List String
  maxOutputTokens : Option MaxTokens
  audio : Option ResponseAudio
  usage : Option Usage
  createdAt : Int
  deriving DecidableEq, Repr

/-- `domain.NewResponse` (`createdAt` is `time.Now().Unix()` in the source
and is zeroed here). -/
def NewResponse (responseID conversationID : String) (modalities : List String) : Response :=
  { object := "realtime.response"
    id := responseID
    status := "in_progress"
    output := []
    conversationID := conversationID
    outputModalities := modalities
    maxOutputTokens := some MaxTokens.inf
    audio := some
      { output := some
          { format := some { type := "audio/pcm", rate := 24000 }
            voice := "alloy"
            speed := 1 } }
    usage := none
    createdAt := 0 }

/-! ## Base64 (encoding side of `encoding/base64` StdEncoding) -/

def base64Alphabet : List Char :=
  "ABCDEFGHIJKLMNOPQRSTUVWXYZabcdefghijklmnopqrstuvwxyz0123456789+/".toList

def base64Char (n : Nat) : Char :=
  base64Alphabet.getD n 'A'

/-- Standard base64 with padding, 3 bytes → 4 chars. -/
def base64Chars : List Nat → List Char
  | [] => []
  | [b1] =>
    [base64Char (b1 / 4 % 64), base64Char (b1 % 4 * 16), '=', '=']
  | [b1, b2] =>
    [base64Char (b1 / 4 % 64), base64Char (b1 % 4 * 16 + b2 / 16 % 16),
      base64Char (b2 % 16 * 4), '=']
  | b1 :: b2 :: b3 :: rest =>
    base64Char (b1 / 4 % 64) :: base64Char (b1 % 4 * 16 + b2 / 16 % 16) ::
      base64Char (b2 % 16 * 4 + b3 / 64 % 4) :: base64Char (b3 % 64) :: base64Chars rest

/-- `base64.StdEncoding.EncodeToString`. -/
def base64Encode (bs : List Nat) : String :=
  (base64Chars bs).asString

/-! ## Transcription chunks and the ASR provider interface (domain) -/

/-- `domain.TranscriptionChunk` (the log-probability payload is not read by
any embedded path). -/
structure TranscriptionChunk where
  text : String
  isFinal : Bool
  startMs : Int
  endMs : Int
  deriving DecidableEq, Repr

/-- The `ASRProvider.Transcribe` contract as seen by the session task: for
given audio and config it either fails up front or delivers a finite chunk
stream (the channel's contents until close).  The per-segment deadline is a
real-time concern outside this embedding: the runs modeled here are those
that reach end-of-stream. -/
def AsrFn : Type :=
  List Nat → TranscriptionConfig → Except String (List TranscriptionChunk)

/-! ## Outbound events (domain server events, as written by `WriteJSON`)

Each constructor mirrors one server event struct; the first `String` is the
server-generated `event_id`.  `transcriptionFailed` is the
`ErrorServerEvent` the source reuses with the `...transcription.failed`
type tag. -/

inductive OutEvent
  | errorEvt (eventId : String) (errType code message : String)
      (param : Option String) (clientEventId : String)
  | sessionCreated (eventId : String) (session : Session)
  | sessionUpdated (eventId : String) (session : Session)
  | bufferCommitted (eventId itemId : String) (previousItemId : Option String)
  | bufferCleared (eventId : String)
  | speechStarted (eventId : String) (audioStartMs : Int) (itemId : String)
  | speechStopped (eventId : String) (audioEndMs : Int) (itemId : String)
  | timeoutTriggered (eventId : String) (audioStartMs audioEndMs : Int) (itemId : String)
  | itemCreated (eventId : String) (item : Item) (previousItemId : Option String)
  | itemDeleted (eventId itemId : String)
  | itemTruncated (eventId itemId : String) (contentIndex : Int) (audioEndMs : Int)
  | transcriptionDelta (eventId itemId : String) (contentIndex : Int) (delta : String)
  | transcriptionCompleted (eventId itemId : String) (contentIndex : Int) (transcript : String)
  | transcriptionFailed (eventId : String) (errType code message : String)
  | responseCreated (eventId : String) (response : Response)
  | responseOutputItemAdded (eventId responseId : String) (outputIndex : Int) (item : Item)
  | responseContentPartAdded (eventId responseId itemId : String)
      (contentIndex outputIndex : Int) (part : ContentPart)
  | responseOutputTextDelta (eventId responseId itemId : String)
      (contentIndex outputIndex : Int) (delta : String)
  | responseOutputTextDone (eventId responseId itemId : String)
      (contentIndex outputIndex : Int) (text : String)
  | responseOutputItemDone (eventId responseId : String) (outputIndex : Int) (item : Item)
  | responseDone (eventId : String) (response : Option Response)
  deriving DecidableEq, Repr

/-! ## ID generation (usecase.IDGenerator)

The source draws a fresh 12-character UUID slice per call; the embedding
models the generator as a fresh-name supply (distinct counter values stand
for the distinct random suffixes). -/

structure IDGen where
  n : Nat
  deriving DecidableEq, Repr

def IDGen.next (g : IDGen) (tag : String) : String × IDGen :=
  (tag ++ toString g.n, { n := g.n + 1 })

/-! ## Session runtime state (domain.SessionState and usecase.SessionUsecase)

`CreatedAt`/`LastActivity` are wall-clock bookkeeping with no effect on any
embedded behavior and are dropped.  The usecase's per-session VAD map
restricted to the one session of a connection becomes `Option VADState`. -/

structure SessionState where
  id : String
  config : Session
  conversation : ConversationState
  audioBuffer : AudioBuffer
  currentResponse : Option Response
  deriving DecidableEq, Repr

structure UCState where
  session : SessionState
  vad : Option VADState
  idGen : IDGen
  deriving DecidableEq, Repr

/-- `SessionUsecase.sendError` (the generated event id is consumed from the
supply; the error echoes the client event id when known). -/
def sendError (st : UCState) (clientEventId errType code message : String)
    (param : Option String) : UCState × List OutEvent :=
  let r := st.idGen.next "evt_"
  ({ st with idGen := r.2 },
    [OutEvent.errorEvt r.1 errType code message param clientEventId])

/-! ## Transcription pipeline (SessionUsecase.transcribeAudio)

The source ranges over the provider's chunk channel, emitting one delta per
received chunk and accumulating `fullTranscript`; on channel close it emits
the completed event and patches the item's first content part.  The
`ctx.Done` branch (deadline) is the real-time path outside this embedding.
The goroutine's emissions are linearized at the spawn point: `created` is
written before the spawn, so every schedule orders them this way for a given
item. -/

/-- The per-chunk loop body: one delta per received chunk (the source does
not test for empty text), concatenating the texts. -/
def emitChunkDeltas (g : IDGen) (itemID : String) (contentIndex : Int) :
    List TranscriptionChunk → IDGen × List OutEvent × String
  | [] => (g, [], "")
  | c :: cs =>
    let r := g.next "evt_"
    let rest := emitChunkDeltas r.2 itemID contentIndex cs
    (rest.1, OutEvent.transcriptionDelta r.1 itemID contentIndex c.text :: rest.2.1,
      c.text ++ rest.2.2)

/-- Patch `item.Content[0].Transcript` when the item exists and has content
(the conversation map holds item pointers, so the patch lands in the map). -/
def patchTranscript (conv : ConversationState) (itemID full : String) : ConversationState :=
  match conv.GetItem itemID with
  | none => conv
  | some item =>
    match item.content with
    | [] => conv
    | p :: rest =>
      let item2 : Item := { item with content := { p with transcript := full } :: rest }
      { conv with items := setItem conv.items itemID item2 }

/-- `SessionUsecase.transcribeAudio`. -/
def transcribeAudio (asr : AsrFn) (st : UCState) (itemID : String) (audioData : List Nat) :
    UCState × List OutEvent :=
  let tc0 : Option TranscriptionConfig :=
    match st.session.config.audio with
    | some a =>
      match a.input with
      | some i => i.transcription
      | none => none
    | none => none
  let tc := tc0.getD { model := "whisper-1", language := "en", prompt := "" }
  match asr audioData tc with
  | .error e =>
    let r := st.idGen.next "evt_"
    ({ st with idGen := r.2 },
      [OutEvent.transcriptionFailed r.1 "transcription_error" "transcription_failed" e])
  | .ok chunks =>
    let d := emitChunkDeltas st.idGen itemID 0 chunks
    let full := d.2.2
    let r := d.1.next "evt_"
    let conv2 := patchTranscript st.session.conversation itemID full
    ({ st with idGen := r.2,
               session := { st.session with conversation := conv2 } },
      d.2.1 ++ [OutEvent.transcriptionCompleted r.1 itemID 0 full])

/-- `SessionUsecase.commitAndTranscribe`. -/
def commitAndTranscribe (asr : AsrFn) (st : UCState) (itemID : String)
    (audioData : List Nat) : UCState × List OutEvent :=
  let item : Item :=
    { NewItem itemID "message" "user" with
        status := "completed"
        content := [{ type := "input_audio", text := "", audio := base64Encode audioData,
                      transcript := "", functionCall := none, format := "pcm16" }] }
  let previousItemID := st.session.conversation.order.getLast?
  let conv2 := st.session.conversation.AddItem item
  let r1 := st.idGen.next "evt_"
  let r2 := r1.2.next "evt_"
  let st2 : UCState :=
    { st with session := { st.session with conversation := conv2 }, idGen := r2.2 }
  let t := transcribeAudio asr st2 itemID audioData
  (t.1, OutEvent.bufferCommitted r1.1 itemID previousItemID ::
    OutEvent.itemCreated r2.1 item previousItemID :: t.2)

/-- `SessionUsecase.handleInputAudioBufferCommit` (`parseOk` is whether the
typed unmarshal of the commit event succeeded). -/
def handleInputAudioBufferCommit (asr : AsrFn) (st : UCState) (parseOk : Bool)
    (eventId : String) : UCState × List OutEvent :=
  if parseOk = false then
    sendError st "" "invalid_request_error" "invalid_event"
      "Failed to parse input_audio_buffer.commit" none
  else if st.session.audioBuffer.IsEmpty then
    sendError st eventId "invalid_request_error" "empty_buffer" "Audio buffer is empty" none
  else
    let c := st.session.audioBuffer.Commit
    let r := st.idGen.next "item_"
    let st1 : UCState :=
      { st with session := { st.session with audioBuffer := c.2 }, idGen := r.2 }
    let k := commitAndTranscribe asr st1 r.1 c.1
    ({ k.1 with session := { k.1.session with audioBuffer := k.1.session.audioBuffer.Clear } },
      k.2)

/-- `SessionUsecase.handleInputAudioBufferClear`. -/
def handleInputAudioBufferClear (st : UCState) (parseOk : Bool) : UCState × List OutEvent :=
  if parseOk = false then
    sendError st "" "invalid_request_error" "invalid_event"
      "Failed to parse input_audio_buffer.clear" none
  else
    let st1 : UCState :=
      { st with session := { st.session with audioBuffer := st.session.audioBuffer.Clear } }
    let r := st1.idGen.next "evt_"
    ({ st1 with idGen := r.2 }, [OutEvent.bufferCleared r.1])

/-- `SessionUsecase.handleSessionUpdate` (the manager lookup cannot fail for
the live session, so the `session_update_failed` branch is unreachable
here). -/
def handleSessionUpdate (st : UCState) (parseOk : Bool) (eventId : String)
    (sessionPayload : Option Session) : UCState × List OutEvent :=
  if parseOk = false then
    sendError st "" "invalid_request_error" "invalid_event" "Failed to parse session.update" none
  else
    match sessionPayload with
    | none =>
      sendError st eventId "invalid_request_error" "missing_field"
        "session field is required" (some "session")
    | some upd =>
      let cfg2 := UpdateSession st.session.config upd
      let st1 : UCState := { st with session := { st.session with config := cfg2 } }
      let r := st1.idGen.next "evt_"
      ({ st1 with idGen := r.2 }, [OutEvent.sessionUpdated r.1 cfg2])

/-- `SessionUsecase.handleResponseCancel`.  The source sets the current
response's status to "cancelled", then nils `state.CurrentResponse`, and
only then builds the `response.done` event from `state.CurrentResponse` —
so the emitted payload is nil. -/
def handleResponseCancel (st : UCState) (parseOk : Bool) (eventId : String) :
    UCState × List OutEvent :=
  if parseOk = false then
    sendError st "" "invalid_request_error" "invalid_event" "Failed to parse response.cancel" none
  else
    match st.session.currentResponse with
    | none =>
      sendError st eventId "invalid_request_error" "no_active_response"
        "No active response to cancel" none
    | some _ =>
      let st1 : UCState := { st with session := { st.session with currentResponse := none } }
      let r := st1.idGen.next "evt_"
      ({ st1 with idGen := r.2 }, [OutEvent.responseDone r.1 st1.session.currentResponse])

/-- `SessionUsecase.handleConversationItemCreate`. -/
def handleConversationItemCreate (st : UCState) (parseOk : Bool) (eventId : String)
    (itemPayload : Option Item) (previousItemId : Option String) : UCState × List OutEvent :=
  if parseOk = false then
    sendError st "" "invalid_request_error" "invalid_event"
      "Failed to parse conversation.item.create" none
  else
    match itemPayload with
    | none =>
      sendError st eventId "invalid_request_error" "missing_field"
        "item field is required" (some "item")
    | some item0 =>
      let g0 := st.idGen
      let idr : String × IDGen :=
        if item0.id = "" then g0.next "item_" else (item0.id, g0)
      let item : Item := { item0 with id := idr.1, object := "realtime.item", status := "completed" }
      let conv2 := st.session.conversation.AddItem item
      let r := idr.2.next "evt_"
      ({ st with session := { st.session with conversation := conv2 }, idGen := r.2 },
        [OutEvent.itemCreated r.1 item previousItemId])

/-- `SessionUsecase.handleConversationItemDelete`. -/
def handleConversationItemDelete (st : UCState) (parseOk : Bool) (eventId itemId : String) :
    UCState × List OutEvent :=
  if parseOk = false then
    sendError st "" "invalid_request_error" "invalid_event"
      "Failed to parse conversation.item.delete" none
  else if itemId = "" then
    sendError st eventId "invalid_request_error" "missing_field"
      "item_id field is required" (some "item_id")
  else
    let d := st.session.conversation.DeleteItem itemId
    if d.2 = false then
      sendError st eventId "invalid_request_error" "item_not_found"
        ("Item not found: " ++ itemId) none
    else
      let st1 : UCState := { st with session := { st.session with conversation := d.1 } }
      let r := st1.idGen.next "evt_"
      ({ st1 with idGen := r.2 }, [OutEvent.itemDeleted r.1 itemId])

/-- `SessionUsecase.handleConversationItemTruncate` (the event is advisory:
the stored content is not modified). -/
def handleConversationItemTruncate (st : UCState) (parseOk : Bool) (eventId itemId : String)
    (contentIndex audioEndMs : Int) : UCState × List OutEvent :=
  if parseOk = false then
    sendError st "" "invalid_request_error" "invalid_event"
      "Failed to parse conversation.item.truncate" none
  else if itemId = "" then
    sendError st eventId "invalid_request_error" "missing_field"
      "item_id field is required" (some "item_id")
  else
    match st.session.conversation.GetItem itemId with
    | none =>
      sendError st eventId "invalid_request_error" "item_not_found"
        ("Item not found: " ++ itemId) none
    | some _ =>
      let r := st.idGen.next "evt_"
      ({ st with idGen := r.2 }, [OutEvent.itemTruncated r.1 itemId contentIndex audioEndMs])

/-- The decoded `response.create` payload fields the handler reads. -/
structure RespPayload where
  instructions : String
  outputModalities : List String
  deriving DecidableEq, Repr

/-- The canned assistant text of the placeholder response. -/
def mockResponseText : String := "This is a mock response from the speech-to-text API."

/-- `SessionUsecase.handleResponseCreate`: the placeholder response flow.
The assistant item is a shared pointer in the source: events written before
its mutation carry the in-progress snapshot, the later ones the completed
snapshot, exactly as serialized at each `WriteJSON`.  Likewise
`state.CurrentResponse` aliases the response object, so after the handler it
holds the completed response. -/
def handleResponseCreate (st : UCState) (parseOk : Bool)
    (responsePayload : Option RespPayload) : UCState × List OutEvent :=
  if parseOk = false then
    sendError st "" "invalid_request_error" "invalid_event" "Failed to parse response.create" none
  else
    let r0 := st.idGen.next "resp_"
    let responseID := r0.1
    let response0 := NewResponse responseID st.session.conversation.id
      st.session.config.outputModalities
    let response :=
      match responsePayload with
      | none => response0
      | some p =>
        let response1 :=
          if p.instructions ≠ "" then { response0 with usage := none } else response0
        if 0 < p.outputModalities.length then
          { response1 with outputModalities := p.outputModalities }
        else response1
    let e1 := r0.2.next "evt_"
    let a1 := e1.2.next "item_"
    let assistantItemID := a1.1
    let assistantItem := NewItem assistantItemID "message" "assistant"
    let e2 := a1.2.next "evt_"
    let textPart : ContentPart :=
      { type := "text", text := "", audio := "", transcript := "", functionCall := none,
        format := "" }
    let e3 := e2.2.next "evt_"
    let e4 := e3.2.next "evt_"
    let e5 := e4.2.next "evt_"
    let assistantItem2 : Item :=
      { assistantItem with
          status := "completed"
          content := [{ type := "text", text := mockResponseText, audio := "",
                        transcript := "", functionCall := none, format := "" }] }
    let e6 := e5.2.next "evt_"
    let response2 : Response :=
      { response with
          status := "completed"
          output := [assistantItem2]
          usage := some
            { totalTokens := 50, inputTokens := 20, outputTokens := 30
              inputTokenDetails := some
                { textTokens := 10, audioTokens := 10, imageTokens := 0, cachedTokens := 0 }
              outputTokenDetails := some
                { textTokens := 30, audioTokens := 0, imageTokens := 0, cachedTokens := 0 } } }
    let e7 := e6.2.next "evt_"
    let conv2 := st.session.conversation.AddItem assistantItem2
    ({ st with
        session := { st.session with
          conversation := conv2
          currentResponse := some response2 }
        idGen := e7.2 },
      [OutEvent.responseCreated e1.1 response,
        OutEvent.responseOutputItemAdded e2.1 responseID 0 assistantItem,
        OutEvent.responseContentPartAdded e3.1 responseID assistantItemID 0 0 textPart,
        OutEvent.responseOutputTextDelta e4.1 responseID assistantItemID 0 0 mockResponseText,
        OutEvent.responseOutputTextDone e5.1 responseID assistantItemID 0 0 mockResponseText,
        OutEvent.responseOutputItemDone e6.1 responseID 0 assistantItem2,
        OutEvent.responseDone e7.1 (some response2)])

/-- `SessionUsecase.getOrCreateVAD`. -/
def getOrCreateVAD (st : UCState) : VADState × UCState :=
  match st.vad with
  | some v => (v, st)
  | none =>
    let vadConfig : VADConfig :=
      match st.session.config.audio with
      | some a =>
        match a.input with
        | some i =>
          match i.turnDetection with
          | some td => VADConfigFromTurnDetection td
          | none => NewDefaultVADConfig
        | none => NewDefaultVADConfig
      | none => NewDefaultVADConfig
    let v := NewSimpleVADProvider (some vadConfig)
    (v, { st with vad := some v })

/-- `SessionUsecase.processVADEvents`: drains the channel (the loop's
`default` case stops at the first empty read; no events are produced while
draining), handling each event in order. -/
def handleVADEvent (asr : AsrFn) (st : UCState) (e : VADEvent) : UCState × List OutEvent :=
  match e.type with
  | .speechStarted =>
    let i := st.idGen.next "item_"
    let r := i.2.next "evt_"
    ({ st with idGen := r.2 }, [OutEvent.speechStarted r.1 e.startMs i.1])
  | .speechStopped =>
    let i := st.idGen.next "item_"
    let r := i.2.next "evt_"
    let st1 : UCState := { st with idGen := r.2 }
    let ev := OutEvent.speechStopped r.1 e.endMs i.1
    if 0 < e.audioData.length then
      let k := commitAndTranscribe asr st1 i.1 e.audioData
      (k.1, ev :: k.2)
    else
      (st1, [ev])
  | .timeout =>
    let r := st.idGen.next "evt_"
    let i := r.2.next "item_"
    ({ st with idGen := i.2 }, [OutEvent.timeoutTriggered r.1 e.startMs e.endMs i.1])

def processVADEventList (asr : AsrFn) (st : UCState) : List VADEvent → UCState × List OutEvent
  | [] => (st, [])
  | e :: es =>
    let r1 := handleVADEvent asr st e
    let r2 := processVADEventList asr r1.1 es
    (r2.1, r1.2 ++ r2.2)

/-- `SessionUsecase.handleInputAudioBufferAppend`.  `audioStr` is the raw
`audio` field; `audioDecoded` is the result of the stdlib base64 decode of
that field (`none` on invalid encoding) — the decoder itself is the
external `encoding/base64` collaborator. -/
def handleInputAudioBufferAppend (asr : AsrFn) (st : UCState) (parseOk : Bool)
    (eventId audioStr : String) (audioDecoded : Option (List Nat)) : UCState × List OutEvent :=
  if parseOk = false then
    sendError st "" "invalid_request_error" "invalid_event"
      "Failed to parse input_audio_buffer.append" none
  else if audioStr = "" then
    sendError st eventId "invalid_request_error" "missing_field"
      "audio field is required" (some "audio")
  else
    match audioDecoded with
    | none =>
      sendError st eventId "invalid_request_error" "invalid_audio"
        "Invalid base64 audio data" (some "audio")
    | some audioBytes =>
      let a := st.session.audioBuffer.Append audioBytes
      match a.2 with
      | some _ =>
        sendError st eventId "invalid_request_error" "buffer_full"
          ("Audio buffer size limit exceeded (max " ++
            toString st.session.audioBuffer.GetMaxSize ++ " bytes)") (some "audio")
      | none =>
        let st1 : UCState := { st with session := { st.session with audioBuffer := a.1 } }
        let vadOn : Bool :=
          match st1.session.config.audio with
          | some ac =>
            match ac.input with
            | some i =>
              match i.turnDetection with
              | some td => td.type != ""
              | none => false
            | none => false
          | none => false
        if vadOn then
          let gv := getOrCreateVAD st1
          let p := gv.1.processAudio audioBytes
          let drained := p.1.events
          let st2 : UCState := { gv.2 with vad := some { p.1 with events := [] } }
          processVADEventList asr st2 drained
        else
          (st1, [])

/-! ## Message dispatch (SessionUsecase.ProcessMessage)

An inbound frame is modeled by its decode results: `invalidJson` when the
`BaseEvent` unmarshal fails, otherwise the `type`/`event_id` pair plus the
projections of the JSON object that the per-type handlers decode
(`parseOk` is the success of the handler's own typed unmarshal). -/

structure MsgFields where
  parseOk : Bool
  sessionPayload : Option Session
  audioStr : String
  audioDecoded : Option (List Nat)
  itemPayload : Option Item
  previousItemId : Option String
  itemId : String
  contentIndex : Int
  audioEndMs : Int
  responsePayload : Option RespPayload

inductive RawMsg
  | invalidJson
  | valid (type eventId : String) (fields : MsgFields)

/-- `SessionUsecase.ProcessMessage`. -/
def ProcessMessage (asr : AsrFn) (st : UCState) (m : RawMsg) : UCState × List OutEvent :=
  match m with
  | .invalidJson =>
    sendError st "" "invalid_request_error" "invalid_json" "Failed to parse message" none
  | .valid ty eid f =>
    if ty = "session.update" then
      handleSessionUpdate st f.parseOk eid f.sessionPayload
    else if ty = "input_audio_buffer.append" then
      handleInputAudioBufferAppend asr st f.parseOk eid f.audioStr f.audioDecoded
    else if ty = "input_audio_buffer.commit" then
      handleInputAudioBufferCommit asr st f.parseOk eid
    else if ty = "input_audio_buffer.clear" then
      handleInputAudioBufferClear st f.parseOk
    else if ty = "conversation.item.create" then
      handleConversationItemCreate st f.parseOk eid f.itemPayload f.previousItemId
    else if ty = "conversation.item.delete" then
      handleConversationItemDelete st f.parseOk eid f.itemId
    else if ty = "conversation.item.truncate" then
      handleConversationItemTruncate st f.parseOk eid f.itemId f.contentIndex f.audioEndMs
    else if ty = "response.create" then
      handleResponseCreate st f.parseOk f.responsePayload
    else if ty = "response.cancel" then
      handleResponseCancel st f.parseOk eid
    else
      sendError st eid "invalid_request_error" "unknown_event_type"
        ("Unknown event type: " ++ ty) none

/-- The read loop: every frame is handed to `ProcessMessage`; no handler
outcome breaks the loop (only a transport read error does). -/
def runSession (asr : AsrFn) (st : UCState) : List RawMsg → UCState × List OutEvent
  | [] => (st, [])
  | m :: ms =>
    let r1 := ProcessMessage asr st m
    let r2 := runSession asr r1.1 ms
    (r2.1, r1.2 ++ r2.2)

/-! ## Observation helpers for the emitted event streams -/

/-- Projection of the transcription events: `false` marks a delta, `true`
the completed event; the rest of the tuple is (item id, content index,
delta/transcript text). -/
def transcriptionView : OutEvent → Option (Bool × String × Int × String)
  | .transcriptionDelta _ i ci d => some (false, i, ci, d)
  | .transcriptionCompleted _ i ci t => some (true, i, ci, t)
  | _ => none

def isTranscriptionEvent : OutEvent → Bool
  | .transcriptionDelta _ _ _ _ => true
  | .transcriptionCompleted _ _ _ _ => true
  | .transcriptionFailed _ _ _ _ => true
  | _ => false

/-- The session/usecase state as `HandleNewConnection` builds it: default
realtime config, fresh conversation, buffer capped at the configured
maximum (15 MiB by default). -/
def initialUC : UCState :=
  { session :=
      { id := "sess_0"
        config := NewSession "sess_0" "gpt-realtime-2025-08-28" 0
        conversation := NewConversationState "conv_0"
        audioBuffer := NewAudioBufferWithMaxSize (15 * 1024 * 1024)
        currentResponse := none }
    vad := none
    idGen := { n := 0 } }

/-- An ASR provider whose chunk stream is a fixed list. -/
def constAsr (chunks : List TranscriptionChunk) : AsrFn :=
  fun _ _ => Except.ok chunks

/-! Helper lemmas for the transcription pipeline. -/

theorem getItemAssoc_setItem (l : List (String × Item)) (k : String) (v : Item) :
    getItemAssoc (setItem l k v) k = some v := by
  induction l with
  | nil => simp [setItem, getItemAssoc]
  | cons kv rest ih =>
    by_cases h : kv.1 = k
    · simp [setItem, getItemAssoc, h]
    · simp [setItem, getItemAssoc, h, ih]

/-- Left-to-right concatenation, as `fullTranscript += chunk.Text` builds
it. -/
def concatTexts : List String → String
  | [] => ""
  | s :: rest => s ++ concatTexts rest

theorem emitChunkDeltas_view (itemID : String) (ci : Int)
    (chunks : List TranscriptionChunk) (g : IDGen) :
    ((emitChunkDeltas g itemID ci chunks).2.1.filterMap transcriptionView =
        chunks.map (fun c => ((false, itemID, ci, c.text) : Bool × String × Int × String))) ∧
      (∀ e ∈ (emitChunkDeltas g itemID ci chunks).2.1, (transcriptionView e).isSome) ∧
      (emitChunkDeltas g itemID ci chunks).2.2 = concatTexts (chunks.map (fun c => c.text)) := by
  induction chunks generalizing g with
  | nil => simp [emitChunkDeltas, concatTexts]
  | cons c cs ih =>
    obtain ⟨ih1, ih2, ih3⟩ := ih (g.next "evt_").2
    refine ⟨?_, ?_, ?_⟩
    · simp [emitChunkDeltas, transcriptionView, ih1]
    · intro e he
      simp only [emitChunkDeltas, List.mem_cons] at he
      rcases he with rfl | he
      · simp [transcriptionView]
      · exact ih2 e he
    · simp [emitChunkDeltas, ih3, concatTexts]

theorem emitChunkDeltas_transcription_events (itemID : String) (ci : Int)
    (chunks : List TranscriptionChunk) (g : IDGen) :
    ∀ e ∈ (emitChunkDeltas g itemID ci chunks).2.1, isTranscriptionEvent e = true := by
  intro e he
  have h := (emitChunkDeltas_view itemID ci chunks g).2.1 e he
  cases e <;> simp [transcriptionView] at h <;> rfl

/-- `patchTranscript` never touches the order. -/
theorem patchTranscript_order (conv : ConversationState) (itemID full : String) :
    (patchTranscript conv itemID full).order = conv.order := by
  unfold patchTranscript
  cases h : conv.GetItem itemID with
  | none => rfl
  | some item =>
    cases hc : item.content with
    | nil => simp [hc]
    | cons p rest => simp [hc]

/-- `transcribeAudio` emits only transcription events and leaves the buffer,
config, current response, VAD and conversation order unchanged. -/
theorem transcribeAudio_frame (asr : AsrFn) (st : UCState) (itemID : String)
    (audioData : List Nat) :
    (∀ e ∈ (transcribeAudio asr st itemID audioData).2, isTranscriptionEvent e = true) ∧
      (transcribeAudio asr st itemID audioData).1.session.audioBuffer =
        st.session.audioBuffer ∧
      (transcribeAudio asr st itemID audioData).1.session.conversation.order =
        st.session.conversation.order ∧
      (transcribeAudio asr st itemID audioData).1.session.config = st.session.config ∧
      (transcribeAudio asr st itemID audioData).1.session.currentResponse =
        st.session.currentResponse ∧
      (transcribeAudio asr st itemID audioData).1.vad = st.vad := by
  unfold transcribeAudio
  dsimp only
  cases hr : asr audioData
      ((match st.session.config.audio with
        | some a =>
          match a.input with
          | some i => i.transcription
          | none => none
        | none => none).getD { model := "whisper-1", language := "en", prompt := "" }) with
  | error e =>
    refine ⟨?_, rfl, rfl, rfl, rfl, rfl⟩
    intro ev hev
    simp only [List.mem_singleton] at hev
    subst hev
    rfl
  | ok chunks =>
    refine ⟨?_, rfl, ?_, rfl, rfl, rfl⟩
    · intro ev hev
      simp only [List.mem_append, List.mem_singleton] at hev
      rcases hev with hev | rfl
      · exact emitChunkDeltas_transcription_events itemID 0 chunks st.idGen ev hev
      · rfl
    · exact patchTranscript_order _ _ _

/-- C1 as stated is false: the transcription loop emits a delta for every
received chunk without testing for empty text.  With a stream consisting of
one final chunk whose text is empty, no chunk has non-empty text, yet a
delta event (with empty delta) is emitted. -/
theorem transcription_delta_counterexample :
    (([({ text := "", isFinal := true, startMs := 0, endMs := 0 } : TranscriptionChunk)].filter
        (fun c => c.text != "")) = []) ∧
      (transcribeAudio
          (constAsr [{ text := "", isFinal := true, startMs := 0, endMs := 0 }])
          initialUC "item_x" [0, 0]).2.filter
          (fun e => match e with | OutEvent.transcriptionDelta _ _ _ _ => true | _ => false) =
        [OutEvent.transcriptionDelta "evt_0" "item_x" 0 ""] := by
  constructor
  · rfl
  · rfl

/-- C1 amended: for each transcription run that reaches end-of-stream, a
delta event carrying the chunk's text (even when empty) is emitted for every
received chunk, in order; then a single completed event carries the
concatenation of all chunk texts — which equals the concatenation of the
emitted deltas — and the item's first content part is patched with that
transcript.  Only transcription events are emitted. -/
theorem transcription_pipeline (asr : AsrFn) (st : UCState) (itemID : String)
    (audio : List Nat) (chunks : List TranscriptionChunk) (item : Item)
    (p : ContentPart) (rest : List ContentPart)
    (hasr : ∀ a c, asr a c = Except.ok chunks)
    (hitem : st.session.conversation.GetItem itemID = some item)
    (hcontent : item.content = p :: rest) :
    (transcribeAudio asr st itemID audio).2.filterMap transcriptionView =
        chunks.map (fun c => ((false, itemID, 0, c.text) : Bool × String × Int × String)) ++
          [(true, itemID, 0, concatTexts (chunks.map (fun c => c.text)))] ∧
      (∀ e ∈ (transcribeAudio asr st itemID audio).2, (transcriptionView e).isSome) ∧
      concatTexts ((transcribeAudio asr st itemID audio).2.filterMap
          (fun e => match e with
            | OutEvent.transcriptionDelta _ _ _ d => some d
            | _ => none)) =
        concatTexts (chunks.map (fun c => c.text)) ∧
      (transcribeAudio asr st itemID audio).1.session.conversation.GetItem itemID =
        some { item with content :=
          { p with transcript := concatTexts (chunks.map (fun c => c.text)) } :: rest } := by
  obtain ⟨hv1, hv2, hv3⟩ := emitChunkDeltas_view itemID 0 chunks st.idGen
  have hdeltaText :
      (emitChunkDeltas st.idGen itemID 0 chunks).2.1.filterMap
          (fun e => match e with
            | OutEvent.transcriptionDelta _ _ _ d => some d
            | _ => none) = chunks.map (fun c => c.text) := by
    clear hv1 hv2 hv3 hitem hcontent hasr
    induction chunks generalizing st with
    | nil => rfl
    | cons c cs ih =>
      simp only [emitChunkDeltas, List.filterMap_cons, List.map_cons]
      have := ih { st with idGen := (st.idGen.next "evt_").2 }
      simp only at this
      simp [this]
  unfold transcribeAudio
  dsimp only
  rw [hasr]
  refine ⟨?_, ?_, ?_, ?_⟩
  · simp only [List.filterMap_append, hv1, hv3]
    rfl
  · intro e he
    simp only [List.mem_append, List.mem_singleton] at he
    rcases he with he | rfl
    · exact hv2 e he
    · rfl
  · simp only [List.filterMap_append, hdeltaText, hv3]
    simp
  · dsimp only
    rw [hv3]
    show (patchTranscript st.session.conversation itemID _).GetItem itemID = _
    unfold patchTranscript
    rw [hitem]
    dsimp only
    rw [hcontent]
    dsimp only
    simp only [ConversationState.GetItem]
    exact getItemAssoc_setItem _ _ _

/-- The concrete item and state for the transcription witness. -/
def c1Item : Item :=
  { NewItem "item_x" "message" "user" with
      status := "completed"
      content := [{ type := "input_audio", text := "", audio := "", transcript := "",
                    functionCall := none, format := "pcm16" }] }

def c1UC : UCState :=
  { initialUC with session :=
      { initialUC.session with
          conversation := initialUC.session.conversation.AddItem c1Item } }

def c1Chunks : List TranscriptionChunk :=
  [{ text := "Hello,", isFinal := false, startMs := 0, endMs := 0 },
    { text := " world", isFinal := true, startMs := 0, endMs := 0 }]

/-- Witness for `transcription_pipeline` at a concrete two-chunk stream. -/
theorem transcription_pipeline_witness :
    (transcribeAudio (constAsr c1Chunks) c1UC "item_x" [0, 0]).2.filterMap transcriptionView =
        c1Chunks.map (fun c => ((false, "item_x", 0, c.text) : Bool × String × Int × String)) ++
          [(true, "item_x", 0, concatTexts (c1Chunks.map (fun c => c.text)))] ∧
      (∀ e ∈ (transcribeAudio (constAsr c1Chunks) c1UC "item_x" [0, 0]).2,
        (transcriptionView e).isSome) ∧
      concatTexts ((transcribeAudio (constAsr c1Chunks) c1UC "item_x" [0, 0]).2.filterMap
          (fun e => match e with
            | OutEvent.transcriptionDelta _ _ _ d => some d
            | _ => none)) =
        concatTexts (c1Chunks.map (fun c => c.text)) ∧
      (transcribeAudio (constAsr c1Chunks) c1UC "item_x" [0, 0]).1.session.conversation.GetItem
          "item_x" =
        some { c1Item with content :=
          [{ type := "input_audio", text := "", audio := "",
             transcript := concatTexts (c1Chunks.map (fun c => c.text)),
             functionCall := none, format := "pcm16" }] } :=
  transcription_pipeline (constAsr c1Chunks) c1UC "item_x" [0, 0] c1Chunks c1Item
    { type := "input_audio", text := "", audio := "", transcript := "",
      functionCall := none, format := "pcm16" } []
    (fun _ _ => rfl) rfl rfl

/-- C5: on `input_audio_buffer.commit`, an empty buffer yields only
`error(empty_buffer)` with buffer and conversation untouched; otherwise the
buffer snapshot becomes a completed user item whose first content part is
`input_audio` carrying the base64 of the snapshot, the item is appended to
the conversation, `input_audio_buffer.committed` then
`conversation.item.created` are emitted in that order before any
transcription event, `previous_item_id` is the pre-insertion tail of the
order (absent when empty), and the buffer is cleared afterwards. -/
theorem commit_flow (asr : AsrFn) (st : UCState) (eid : String) :
    (st.session.audioBuffer.IsEmpty = true →
      handleInputAudioBufferCommit asr st true eid =
        ({ st with idGen := { n := st.idGen.n + 1 } },
          [OutEvent.errorEvt ("evt_" ++ toString st.idGen.n) "invalid_request_error"
            "empty_buffer" "Audio buffer is empty" none eid])) ∧
    (st.session.audioBuffer.IsEmpty = false →
      ∃ eid1 eid2 tevs,
        (handleInputAudioBufferCommit asr st true eid).2 =
            OutEvent.bufferCommitted eid1 ("item_" ++ toString st.idGen.n)
                st.session.conversation.order.getLast? ::
              OutEvent.itemCreated eid2
                { id := "item_" ++ toString st.idGen.n
                  object := "realtime.item"
                  type := "message"
                  status := "completed"
                  role := "user"
                  content := [{ type := "input_audio", text := "",
                                audio := base64Encode st.session.audioBuffer.data,
                                transcript := "", functionCall := none, format := "pcm16" }]
                  createdAt := 0 }
                st.session.conversation.order.getLast? :: tevs ∧
          (∀ e ∈ tevs, isTranscriptionEvent e = true) ∧
          (handleInputAudioBufferCommit asr st true eid).1.session.conversation.order =
            st.session.conversation.order ++ ["item_" ++ toString st.idGen.n] ∧
          (handleInputAudioBufferCommit asr st true eid).1.session.audioBuffer.data = []) := by
  constructor
  · intro h
    simp [handleInputAudioBufferCommit, h, sendError, IDGen.next]
  · intro h
    refine ⟨"evt_" ++ toString (st.idGen.n + 1), "evt_" ++ toString (st.idGen.n + 2), ?_⟩
    simp only [handleInputAudioBufferCommit, h, Bool.false_eq_true, if_false,
      commitAndTranscribe, AudioBuffer.Commit, IDGen.next]
    set st2 : UCState :=
      { st with
          session :=
            { st.session with
                audioBuffer := { st.session.audioBuffer with committed := true }
                conversation := st.session.conversation.AddItem
                  { NewItem ("item_" ++ toString st.idGen.n) "message" "user" with
                      status := "completed"
                      content := [{ type := "input_audio", text := "",
                                    audio := base64Encode st.session.audioBuffer.data,
                                    transcript := "", functionCall := none,
                                    format := "pcm16" }] } }
          idGen := { n := st.idGen.n + 3 } } with hst2
    refine ⟨(transcribeAudio asr st2 ("item_" ++ toString st.idGen.n)
        st.session.audioBuffer.data).2, ?_, ?_, ?_, ?_⟩
    · rfl
    · exact (transcribeAudio_frame asr st2 _ _).1
    · have hord := (transcribeAudio_frame asr st2 ("item_" ++ toString st.idGen.n)
        st.session.audioBuffer.data).2.2.1
      show (transcribeAudio asr st2 _ _).1.session.conversation.order = _
      rw [hord, hst2]
      rfl
    · have hbuf := (transcribeAudio_frame asr st2 ("item_" ++ toString st.idGen.n)
        st.session.audioBuffer.data).2.1
      show ((transcribeAudio asr st2 _ _).1.session.audioBuffer.Clear).data = []
      rfl

/-- A state with three bytes in the audio buffer, for the commit witness. -/
def c5UC : UCState :=
  { initialUC with session :=
      { initialUC.session with
          audioBuffer := (initialUC.session.audioBuffer.Append [1, 2, 3]).1 } }

/-- Witness for `commit_flow`: the empty branch at the fresh connection
state, the non-empty branch after appending three bytes. -/
theorem commit_flow_witness :
    (handleInputAudioBufferCommit (constAsr c1Chunks) initialUC true "e1" =
        ({ initialUC with idGen := { n := 1 } },
          [OutEvent.errorEvt "evt_0" "invalid_request_error" "empty_buffer"
            "Audio buffer is empty" none "e1"])) ∧
      (∃ eid1 eid2 tevs,
        (handleInputAudioBufferCommit (constAsr c1Chunks) c5UC true "e1").2 =
            OutEvent.bufferCommitted eid1 ("item_" ++ toString c5UC.idGen.n)
                c5UC.session.conversation.order.getLast? ::
              OutEvent.itemCreated eid2
                { id := "item_" ++ toString c5UC.idGen.n
                  object := "realtime.item"
                  type := "message"
                  status := "completed"
                  role := "user"
                  content := [{ type := "input_audio", text := "",
                                audio := base64Encode c5UC.session.audioBuffer.data,
                                transcript := "", functionCall := none, format := "pcm16" }]
                  createdAt := 0 }
                c5UC.session.conversation.order.getLast? :: tevs ∧
          (∀ e ∈ tevs, isTranscriptionEvent e = true) ∧
          (handleInputAudioBufferCommit (constAsr c1Chunks) c5UC
              true "e1").1.session.conversation.order =
            c5UC.session.conversation.order ++ ["item_" ++ toString c5UC.idGen.n] ∧
          (handleInputAudioBufferCommit (constAsr c1Chunks) c5UC
              true "e1").1.session.audioBuffer.data = []) :=
  ⟨(commit_flow (constAsr c1Chunks) initialUC "e1").1 rfl,
    (commit_flow (constAsr c1Chunks) c5UC "e1").2 rfl⟩

/-- The state with an in-progress placeholder response, for the cancel
evaluation. -/
def c8UC : UCState :=
  { initialUC with session :=
      { initialUC.session with
          currentResponse := some (NewResponse "resp_0" "conv_0" ["audio"]) } }

/-- C8 evaluated on the code: with no current response the handler emits
`error(no_active_response)` and changes nothing; with a current response it
clears it and emits `response.done` — but the event's response payload is
nil (the source nils `state.CurrentResponse` before building the event), not
the cancelled response the claim describes. -/
theorem response_cancel_evaluation :
    handleResponseCancel initialUC true "e1" =
        ({ initialUC with idGen := { n := 1 } },
          [OutEvent.errorEvt "evt_0" "invalid_request_error" "no_active_response"
            "No active response to cancel" none "e1"]) ∧
      handleResponseCancel c8UC true "e1" =
        ({ c8UC with
            session := { c8UC.session with currentResponse := none }
            idGen := { n := 1 } },
          [OutEvent.responseDone "evt_0" none]) := by
  constructor
  · rfl
  · rfl

/-- The nine event types `ProcessMessage` dispatches on. -/
def knownEventTypes : List String :=
  ["session.update", "input_audio_buffer.append", "input_audio_buffer.commit",
    "input_audio_buffer.clear", "conversation.item.create", "conversation.item.delete",
    "conversation.item.truncate", "response.create", "response.cancel"]

/-- C9: malformed JSON yields only `error(invalid_json)`; an unknown event
type yields only `error(unknown_event_type)` echoing the client `event_id`;
in both cases the session (config, conversation, buffer, response, VAD) is
untouched — only the event-id supply advances — and the read loop keeps
processing the subsequent messages from that unchanged session state. -/
theorem decode_error_handling (asr : AsrFn) (st : UCState) (ms : List RawMsg)
    (ty eid : String) (f : MsgFields) (hty : ty ∉ knownEventTypes) :
    ProcessMessage asr st RawMsg.invalidJson =
        ({ st with idGen := { n := st.idGen.n + 1 } },
          [OutEvent.errorEvt ("evt_" ++ toString st.idGen.n) "invalid_request_error"
            "invalid_json" "Failed to parse message" none ""]) ∧
      ProcessMessage asr st (RawMsg.valid ty eid f) =
        ({ st with idGen := { n := st.idGen.n + 1 } },
          [OutEvent.errorEvt ("evt_" ++ toString st.idGen.n) "invalid_request_error"
            "unknown_event_type" ("Unknown event type: " ++ ty) none eid]) ∧
      runSession asr st (RawMsg.valid ty eid f :: ms) =
        ((runSession asr { st with idGen := { n := st.idGen.n + 1 } } ms).1,
          OutEvent.errorEvt ("evt_" ++ toString st.idGen.n) "invalid_request_error"
              "unknown_event_type" ("Unknown event type: " ++ ty) none eid ::
            (runSession asr { st with idGen := { n := st.idGen.n + 1 } } ms).2) := by
  simp only [knownEventTypes, List.mem_cons, List.mem_singleton, not_or] at hty
  obtain ⟨h1, h2, h3, h4, h5, h6, h7, h8, h9, -⟩ := hty
  have hunknown : ProcessMessage asr st (RawMsg.valid ty eid f) =
      ({ st with idGen := { n := st.idGen.n + 1 } },
        [OutEvent.errorEvt ("evt_" ++ toString st.idGen.n) "invalid_request_error"
          "unknown_event_type" ("Unknown event type: " ++ ty) none eid]) := by
    simp [ProcessMessage, h1, h2, h3, h4, h5, h6, h7, h8, h9, sendError, IDGen.next]
  refine ⟨rfl, hunknown, ?_⟩
  show (let r1 := ProcessMessage asr st (RawMsg.valid ty eid f)
        let r2 := runSession asr r1.1 ms
        (r2.1, r1.2 ++ r2.2)) = _
  rw [hunknown]
  rfl

/-- Witness for `decode_error_handling` at a concrete unknown event type. -/
theorem decode_error_handling_witness :
    ProcessMessage (constAsr []) initialUC RawMsg.invalidJson =
        ({ initialUC with idGen := { n := 1 } },
          [OutEvent.errorEvt "evt_0" "invalid_request_error"
            "invalid_json" "Failed to parse message" none ""]) ∧
      ProcessMessage (constAsr []) initialUC
          (RawMsg.valid "bogus.event" "cli_7"
            { parseOk := true, sessionPayload := none, audioStr := "",
              audioDecoded := none, itemPayload := none, previousItemId := none,
              itemId := "", contentIndex := 0, audioEndMs := 0, responsePayload := none }) =
        ({ initialUC with idGen := { n := 1 } },
          [OutEvent.errorEvt "evt_0" "invalid_request_error"
            "unknown_event_type" "Unknown event type: bogus.event" none "cli_7"]) ∧
      runSession (constAsr []) initialUC
          (RawMsg.valid "bogus.event" "cli_7"
            { parseOk := true, sessionPayload := none, audioStr := "",
              audioDecoded := none, itemPayload := none, previousItemId := none,
              itemId := "", contentIndex := 0, audioEndMs := 0, responsePayload := none } :: []) =
        ((runSession (constAsr []) { initialUC with idGen := { n := 1 } } []).1,
          OutEvent.errorEvt "evt_0" "invalid_request_error"
              "unknown_event_type" "Unknown event type: bogus.event" none "cli_7" ::
            (runSession (constAsr []) { initialUC with idGen := { n := 1 } } []).2) :=
  decode_error_handling (constAsr []) initialUC [] "bogus.event" "cli_7"
    { parseOk := true, sessionPayload := none, audioStr := "",
      audioDecoded := none, itemPayload := none, previousItemId := none,
      itemId := "", contentIndex := 0, audioEndMs := 0, responsePayload := none }
    (by decide)

/-! ## ASR model registry (usecase.ASRModelRegistry)

Configuration structs from the `config` package (`ModelConfig.Provider` is
the provider-type tag the registry dispatches on).  Provider handles are
opaque and concurrency-safe; distinct `Nat` values stand for distinct
instances.  The creator functions perform model-file I/O, so a call's
would-be outcome is passed in as an oracle (`create`); the returned `Bool`
reports whether the creator was actually invoked.  The double-checked
locking collapses under the sequential semantics: the re-check after taking
the write guard sees the same map.  (The `%v` list interpolations of the
source's error strings are elided.) -/

def lookupA {α : Type} : List (String × α) → String → Option α
  | [], _ => none
  | kv :: rest, k => if kv.1 = k then some kv.2 else lookupA rest k

def setA {α : Type} : List (String × α) → String → α → List (String × α)
  | [], k, v => [(k, v)]
  | kv :: rest, k, v => if kv.1 = k then (k, v) :: rest else kv :: setA rest k v

structure ModelConfig where
  provider : String
  encoder : String
  decoder : String
  joiner : String
  tokens : String
  languages : List String
  deriving DecidableEq, Repr

structure ASRConfig where
  provider : String
  numThreads : Int
  modelsDir : String
  defaultModel : String
  models : List (String × ModelConfig)
  deriving DecidableEq, Repr

abbrev ProviderHandle := Nat

structure ASRModelRegistry where
  globalConfig : Option ASRConfig
  loadedModels : List (String × ProviderHandle)
  providerTypes : List String
  deriving DecidableEq, Repr

/-- `ASRModelRegistry.GetModel`.  Returns (result, updated registry, whether
the creator ran). -/
def GetModel (r : ASRModelRegistry) (modelName language : String)
    (create : Except String ProviderHandle) :
    Except String ProviderHandle × ASRModelRegistry × Bool :=
  match r.globalConfig with
  | none => (.error "ASR configuration not available", r, false)
  | some cfg =>
    match lookupA cfg.models modelName with
    | none => (.error ("model '" ++ modelName ++ "' not found"), r, false)
    | some modelConfig =>
      if language = "" then (.error "language is required", r, false)
      else if modelConfig.languages.contains language = false then
        (.error ("language '" ++ language ++ "' is not supported by model '" ++
          modelName ++ "'"), r, false)
      else
        match lookupA r.loadedModels modelName with
        | some provider => (.ok provider, r, false)
        | none =>
          if modelConfig.provider = "" then
            (.error ("model '" ++ modelName ++ "' does not specify a provider type"), r, false)
          else if r.providerTypes.contains modelConfig.provider = false then
            (.error ("unsupported provider type: " ++ modelConfig.provider), r, false)
          else
            match create with
            | .error e =>
              (.error ("failed to load model '" ++ modelName ++ "': " ++ e), r, true)
            | .ok provider =>
              (.ok provider,
                { r with loadedModels := setA r.loadedModels modelName provider }, true)

/-- One `GetModel` call record: arguments plus the creator's would-be
outcome. -/
structure RegCall where
  modelName : String
  language : String
  create : Except String ProviderHandle

/-- A sequence of `GetModel` calls, collecting (result, invoked) pairs. -/
def runRegistry (r : ASRModelRegistry) :
    List RegCall → ASRModelRegistry × List (Except String ProviderHandle × Bool)
  | [] => (r, [])
  | c :: cs =>
    let x := GetModel r c.modelName c.language c.create
    let rest := runRegistry x.2.1 cs
    (rest.1, (x.1, x.2.2) :: rest.2)

/-- The number of calls for a given name whose creator invocation succeeded. -/
def loadsFor (n : String) : List RegCall → List (Except String ProviderHandle × Bool) → Nat
  | c :: cs, x :: xs =>
    (if c.modelName = n ∧ x.2 = true ∧ x.1.isOk then 1 else 0) + loadsFor n cs xs
  | _, _ => 0

/-- The validations `GetModel` runs before consulting the cache. -/
def validationOk (r : ASRModelRegistry) (modelName language : String) : Prop :=
  ∃ cfg mc, r.globalConfig = some cfg ∧ lookupA cfg.models modelName = some mc ∧
    language ≠ "" ∧ mc.languages.contains language = true

theorem lookupA_setA_self {α : Type} (l : List (String × α)) (k : String) (v : α) :
    lookupA (setA l k v) k = some v := by
  induction l with
  | nil => simp [setA, lookupA]
  | cons kv rest ih =>
    by_cases h : kv.1 = k
    · simp [setA, lookupA, h]
    · simp [setA, lookupA, h, ih]

theorem lookupA_setA_other {α : Type} (l : List (String × α)) (k k2 : String) (v : α)
    (h : k ≠ k2) : lookupA (setA l k v) k2 = lookupA l k2 := by
  induction l with
  | nil => simp [setA, lookupA, h]
  | cons kv rest ih =>
    by_cases h2 : kv.1 = k
    · simp [setA, lookupA, h2, h]
    · simp [setA, lookupA, h2, ih]

/-- A cache hit returns the cached handle without invoking the creator and
without touching the registry (provided the validations pass). -/
theorem GetModel_cached (r : ASRModelRegistry) (n lang : String) (p : ProviderHandle)
    (create : Except String ProviderHandle)
    (hv : validationOk r n lang) (hp : lookupA r.loadedModels n = some p) :
    GetModel r n lang create = (.ok p, r, false) := by
  obtain ⟨cfg, mc, hcfg, hmc, hlang, hsup⟩ := hv
  simp only [GetModel, hcfg, hmc, hlang, hsup]
  simp [hp]

/-- Exhaustive case analysis of one `GetModel` call: either the creator did
not run and the registry is unchanged, or it ran on a cache miss, in which
case a failing creator leaves the registry unchanged and a succeeding one
caches the handle. -/
theorem GetModel_master (r : ASRModelRegistry) (n lang : String)
    (create : Except String ProviderHandle) :
    ((GetModel r n lang create).2.2 = false ∧ (GetModel r n lang create).2.1 = r) ∨
      ((GetModel r n lang create).2.2 = true ∧ lookupA r.loadedModels n = none ∧
        ((∃ e, create = Except.error e ∧
            (GetModel r n lang create).1 =
              Except.error ("failed to load model '" ++ n ++ "': " ++ e) ∧
            (GetModel r n lang create).2.1 = r) ∨
          (∃ p, create = Except.ok p ∧ (GetModel r n lang create).1 = Except.ok p ∧
            (GetModel r n lang create).2.1 =
              { r with loadedModels := setA r.loadedModels n p }))) := by
  unfold GetModel
  repeat' split
  all_goals try exact Or.inl ⟨rfl, rfl⟩
  · exact Or.inr ⟨rfl, by assumption, Or.inl ⟨_, rfl, rfl, rfl⟩⟩
  · exact Or.inr ⟨rfl, by assumption, Or.inr ⟨_, rfl, rfl, rfl⟩⟩

/-- Whether the creator runs depends only on the registry and the call's
name and language, not on the creator's outcome. -/
theorem GetModel_invoked_independent (r : ASRModelRegistry) (n lang : String)
    (create1 create2 : Except String ProviderHandle) :
    (GetModel r n lang create1).2.2 = (GetModel r n lang create2).2.2 := by
  unfold GetModel
  repeat' split
  all_goals rfl

/-- When no creator runs, the registry is unchanged. -/
theorem GetModel_not_invoked_frame (r : ASRModelRegistry) (n lang : String)
    (create : Except String ProviderHandle)
    (h : (GetModel r n lang create).2.2 = false) :
    (GetModel r n lang create).2.1 = r := by
  rcases GetModel_master r n lang create with ⟨-, hfr⟩ | ⟨htrue, -, -⟩
  · exact hfr
  · rw [htrue] at h
    exact Bool.noConfusion h

/-- If the creator ran, the cache had no entry for the name, a failing
creator leaves the registry unchanged, and a succeeding one caches the
handle. -/
theorem GetModel_invoked (r : ASRModelRegistry) (n lang : String)
    (create : Except String ProviderHandle)
    (h : (GetModel r n lang create).2.2 = true) :
    lookupA r.loadedModels n = none ∧
      (∀ e, create = Except.error e →
        (GetModel r n lang create).1 =
            Except.error ("failed to load model '" ++ n ++ "': " ++ e) ∧
          (GetModel r n lang create).2.1 = r) ∧
      (∀ p, create = Except.ok p →
        (GetModel r n lang create).1 = Except.ok p ∧
          lookupA (GetModel r n lang create).2.1.loadedModels n = some p) := by
  rcases GetModel_master r n lang create with ⟨hfalse, -⟩ | ⟨-, hmiss, hcase⟩
  · rw [h] at hfalse
    exact Bool.noConfusion hfalse
  · refine ⟨hmiss, ?_, ?_⟩
    · rintro e rfl
      rcases hcase with ⟨e2, he2, herr, hfr⟩ | ⟨p, hp, -, -⟩
      · cases he2
        exact ⟨herr, hfr⟩
      · exact Except.noConfusion hp
    · rintro p rfl
      rcases hcase with ⟨e2, he2, -, -⟩ | ⟨p2, hp2, hok, hst⟩
      · exact Except.noConfusion he2
      · cases hp2
        rw [hok, hst]
        exact ⟨rfl, lookupA_setA_self _ _ _⟩

/-- Loaded entries survive every later call. -/
theorem GetModel_monotone (r : ASRModelRegistry) (n n2 lang : String) (p : ProviderHandle)
    (create : Except String ProviderHandle)
    (hp : lookupA r.loadedModels n = some p) :
    lookupA (GetModel r n2 lang create).2.1.loadedModels n = some p := by
  rcases GetModel_master r n2 lang create with ⟨-, hfr⟩ | ⟨-, hmiss, hcase⟩
  · rw [hfr]
    exact hp
  · rcases hcase with ⟨e, -, -, hfr⟩ | ⟨q, -, -, hst⟩
    · rw [hfr]
      exact hp
    · rw [hst]
      have hne : n2 ≠ n := by
        intro hEq
        subst hEq
        rw [hmiss] at hp
        exact Option.noConfusion hp
      rw [lookupA_setA_other _ _ _ _ hne]
      exact hp

/-- Once a name is cached, no later call invokes the creator for it. -/
theorem runRegistry_no_reload (n : String) (calls : List RegCall)
    (r : ASRModelRegistry) (p : ProviderHandle)
    (hp : lookupA r.loadedModels n = some p) :
    loadsFor n calls (runRegistry r calls).2 = 0 := by
  induction calls generalizing r p with
  | nil => rfl
  | cons c cs ih =>
    simp only [runRegistry, loadsFor]
    have hstep := GetModel_monotone r n c.modelName c.language p c.create hp
    rw [ih _ _ hstep]
    by_cases hn : c.modelName = n
    · subst hn
      have hninv : (GetModel r c.modelName c.language c.create).2.2 = false := by
        cases hb : (GetModel r c.modelName c.language c.create).2.2 with
        | false => rfl
        | true =>
          obtain ⟨hmiss, -, -⟩ := GetModel_invoked r c.modelName c.language c.create hb
          rw [hmiss] at hp
          exact Option.noConfusion hp
      simp [hninv]
    · simp [hn]

/-- C7: across any sequence of `GetModel` calls, the creator for a given
name succeeds at most once — after a success every later call returns the
same cached handle without invoking the creator — and a construction failure
is returned to the caller with the cache unchanged, so a later call with
that name invokes the creator again. -/
theorem registry_model_loading (r : ASRModelRegistry) (n lang : String)
    (calls : List RegCall) (e : String) :
    loadsFor n calls (runRegistry r calls).2 ≤ 1 ∧
      (∀ p create, validationOk r n lang → lookupA r.loadedModels n = some p →
        GetModel r n lang create = (.ok p, r, false)) ∧
      ((GetModel r n lang (.error e)).2.2 = true →
        (GetModel r n lang (.error e)).1 =
            .error ("failed to load model '" ++ n ++ "': " ++ e) ∧
          (GetModel r n lang (.error e)).2.1 = r ∧
          ∀ c2, (GetModel r n lang c2).2.2 = true) := by
  refine ⟨?_, ?_, ?_⟩
  · induction calls generalizing r with
    | nil => simp [runRegistry, loadsFor]
    | cons c cs ih =>
      simp only [runRegistry, loadsFor]
      by_cases hload : c.modelName = n ∧ (GetModel r c.modelName c.language c.create).2.2 = true ∧
          (GetModel r c.modelName c.language c.create).1.isOk = true
      · obtain ⟨hn, hinv, hok⟩ := hload
        subst hn
        obtain ⟨-, -, hcase⟩ := GetModel_invoked r c.modelName c.language c.create hinv
        cases hc : c.create with
        | error e2 =>
          obtain ⟨-, -, hcase2⟩ := GetModel_invoked r c.modelName c.language c.create hinv
          obtain ⟨herr, -⟩ := (GetModel_invoked r c.modelName c.language c.create hinv).2.1 e2 hc
          rw [herr] at hok
          simp [Except.isOk, Except.toBool] at hok
        | ok p =>
          obtain ⟨-, hcached⟩ := hcase p hc
          have hzero := runRegistry_no_reload c.modelName cs
            (GetModel r c.modelName c.language c.create).2.1 p hcached
          rw [hc] at hinv hok hzero
          simp [hinv, hok, hzero]
      · have hz : (if c.modelName = n ∧ (GetModel r c.modelName c.language c.create).2.2 = true ∧
            (GetModel r c.modelName c.language c.create).1.isOk = true then 1 else 0) = 0 := by
          simp [hload]
        rw [hz]
        simpa using ih (GetModel r c.modelName c.language c.create).2.1
  · intro p create hv hp
    exact GetModel_cached r n lang p create hv hp
  · intro hinv
    obtain ⟨hmiss, hfail, -⟩ := GetModel_invoked r n lang (.error e) hinv
    obtain ⟨herr, hfr⟩ := hfail e rfl
    refine ⟨herr, hfr, ?_⟩
    intro c2
    rw [GetModel_invoked_independent r n lang c2 (.error e)]
    exact hinv

/-- A configured registry with one model ("m1", sherpa provider, en/id). -/
def regCfg : ASRConfig :=
  { provider := "cpu", numThreads := 4, modelsDir := "/models", defaultModel := "m1",
    models := [("m1", { provider := "sherpa-onnx", encoder := "enc", decoder := "dec",
                        joiner := "join", tokens := "tok", languages := ["en", "id"] })] }

def regR : ASRModelRegistry :=
  { globalConfig := some regCfg, loadedModels := [],
    providerTypes := ["sherpa-onnx", "whisper-cpp"] }

def regRLoaded : ASRModelRegistry := { regR with loadedModels := [("m1", 5)] }

def regCalls : List RegCall :=
  [{ modelName := "m1", language := "en", create := Except.error "boom" },
    { modelName := "m1", language := "en", create := Except.ok 7 },
    { modelName := "m1", language := "en", create := Except.ok 8 }]

/-- Witness for `registry_model_loading`: a failed load, a successful load
and a retry on one name; a cache hit on a loaded registry. -/
theorem registry_model_loading_witness :
    loadsFor "m1" regCalls (runRegistry regR regCalls).2 ≤ 1 ∧
      GetModel regRLoaded "m1" "en" (Except.ok 9) = (Except.ok 5, regRLoaded, false) ∧
      ((GetModel regR "m1" "en" (Except.error "boom")).1 =
          Except.error ("failed to load model '" ++ "m1" ++ "': " ++ "boom") ∧
        (GetModel regR "m1" "en" (Except.error "boom")).2.1 = regR ∧
        ∀ c2, (GetModel regR "m1" "en" c2).2.2 = true) := by
  obtain ⟨h1, -, h3⟩ := registry_model_loading regR "m1" "en" regCalls "boom"
  obtain ⟨-, h2, -⟩ := registry_model_loading regRLoaded "m1" "en" [] "x"
  refine ⟨h1, ?_, h3 rfl⟩
  exact h2 5 (Except.ok 9)
    ⟨regCfg, { provider := "sherpa-onnx", encoder := "enc", decoder := "dec",
               joiner := "join", tokens := "tok", languages := ["en", "id"] },
      rfl, rfl, by decide, by decide⟩ rfl

/-! ## VAD utterance lemmas (toward C6) -/

/-- `sendEvent` only touches the channel. -/
theorem sendEvent_eq (v : VADState) (e : VADEvent) :
    v.sendEvent e = { v with events := if v.closed = false ∧ v.events.length < 10
                                        then v.events ++ [e] else v.events } := by
  unfold VADState.sendEvent
  by_cases h1 : v.closed
  · rw [if_pos h1,
      if_neg (fun hc => Bool.noConfusion (h1 ▸ hc.1 : (true : Bool) = false))]
  · by_cases h2 : v.events.length < 10
    · rw [if_neg h1, if_pos h2, if_pos ⟨Bool.not_eq_true v.closed ▸ h1, h2⟩]
    · rw [if_neg h1, if_neg h2, if_neg (fun hc => h2 hc.2)]

/-- A chunk with no bytes is ignored entirely. -/
theorem processAudio_empty (v : VADState) (c : List Nat) (hc : c.length = 0) :
    v.processAudio c = (v, []) := by
  unfold VADState.processAudio
  by_cases h1 : v.closed
  · simp [h1]
  · simp [h1, hc]

/-- The silence-to-speech transition: one `speech_started` whose `start_ms`
is the clock minus the prefix padding, floored at 0; the chunk starts the
segment buffer. -/
theorem processAudio_trigger (v : VADState) (c0 : List Nat)
    (hclosed : v.closed = false) (hns : v.isSpeaking = false)
    (hne : c0.length ≠ 0) (hhigh : energyExceeds c0 v.config.threshold = true) :
    (v.processAudio c0).2 =
        [{ type := VADEventType.speechStarted,
           startMs := if v.currentMs - v.config.prefixPaddingMs < 0 then 0
                      else v.currentMs - v.config.prefixPaddingMs,
           endMs := 0, audioData := [] }] ∧
      (v.processAudio c0).1.isSpeaking = true ∧
      (v.processAudio c0).1.audioBuffer = v.audioBuffer ++ c0 ∧
      (v.processAudio c0).1.silentSamples = 0 ∧
      (v.processAudio c0).1.startMs = v.currentMs ∧
      (v.processAudio c0).1.currentMs = v.currentMs + chunkDur v.config c0 ∧
      (v.processAudio c0).1.closed = false ∧
      (v.processAudio c0).1.config = v.config := by
  unfold VADState.processAudio
  simp only [hclosed, Bool.false_eq_true, if_false, hne, ite_false, hhigh, if_true, hns,
    sendEvent_eq]
  norm_num

/-- A loud chunk while already speaking: silence counter resets, the chunk
is accumulated, no event. -/
theorem processAudio_speaking_high (v : VADState) (c : List Nat)
    (hclosed : v.closed = false) (hs : v.isSpeaking = true)
    (hne : c.length ≠ 0) (hhigh : energyExceeds c v.config.threshold = true) :
    (v.processAudio c).2 = [] ∧
      (v.processAudio c).1.isSpeaking = true ∧
      (v.processAudio c).1.audioBuffer = v.audioBuffer ++ c ∧
      (v.processAudio c).1.silentSamples = 0 ∧
      (v.processAudio c).1.startMs = v.startMs ∧
      (v.processAudio c).1.currentMs = v.currentMs + chunkDur v.config c ∧
      (v.processAudio c).1.closed = false ∧
      (v.processAudio c).1.config = v.config := by
  unfold VADState.processAudio
  simp only [hclosed, Bool.false_eq_true, if_false, hne, ite_false, hhigh, if_true, hs]
  norm_num

/-- A quiet chunk while speaking, below the stop threshold: the chunk is
still accumulated (bridging silence), the counter grows, no event. -/
theorem processAudio_speaking_low_cont (v : VADState) (c : List Nat)
    (hclosed : v.closed = false) (hs : v.isSpeaking = true)
    (hne : c.length ≠ 0) (hlow : energyExceeds c v.config.threshold = false)
    (hsil : v.silentSamples + chunkDur v.config c < v.config.silenceDurationMs) :
    (v.processAudio c).2 = [] ∧
      (v.processAudio c).1.isSpeaking = true ∧
      (v.processAudio c).1.audioBuffer = v.audioBuffer ++ c ∧
      (v.processAudio c).1.silentSamples = v.silentSamples + chunkDur v.config c ∧
      (v.processAudio c).1.startMs = v.startMs ∧
      (v.processAudio c).1.currentMs = v.currentMs + chunkDur v.config c ∧
      (v.processAudio c).1.closed = false ∧
      (v.processAudio c).1.config = v.config := by
  have hsil2 : ¬(v.config.silenceDurationMs ≤ v.silentSamples + chunkDur v.config c) :=
    not_le.mpr hsil
  unfold VADState.processAudio
  simp only [hclosed, Bool.false_eq_true, if_false, hne, ite_false, hlow, hs, if_true]
  norm_num [hsil2]

/-- The quiet chunk that pushes accumulated silence over the threshold: one
`speech_stopped` carrying the whole accumulated segment (including this
chunk), after which the speaking flag is down and the segment buffer is
empty. -/
theorem processAudio_speaking_stop (v : VADState) (c : List Nat)
    (hclosed : v.closed = false) (hs : v.isSpeaking = true)
    (hne : c.length ≠ 0) (hlow : energyExceeds c v.config.threshold = false)
    (hsil : v.config.silenceDurationMs ≤ v.silentSamples + chunkDur v.config c) :
    (v.processAudio c).2 =
        [{ type := VADEventType.speechStopped, startMs := v.startMs, endMs := v.currentMs,
           audioData := v.audioBuffer ++ c }] ∧
      (v.processAudio c).1.isSpeaking = false ∧
      (v.processAudio c).1.audioBuffer = [] ∧
      (v.processAudio c).1.startMs = v.startMs ∧
      (v.processAudio c).1.currentMs = v.currentMs + chunkDur v.config c ∧
      (v.processAudio c).1.closed = false ∧
      (v.processAudio c).1.config = v.config := by
  unfold VADState.processAudio
  simp only [hclosed, Bool.false_eq_true, if_false, hne, ite_false, hlow, hs, if_true,
    sendEvent_eq]
  norm_num [hsil]

theorem chunkDur_nil (cfg : VADConfig) : chunkDur cfg [] = 0 := by
  simp [chunkDur]

theorem runVAD_cons (v : VADState) (c : List Nat) (cs : List (List Nat)) :
    runVAD v (c :: cs) =
      ((runVAD (v.processAudio c).1 cs).1,
        (v.processAudio c).2 ++ (runVAD (v.processAudio c).1 cs).2) := rfl

theorem runVAD_append (l1 l2 : List (List Nat)) (v : VADState) :
    runVAD v (l1 ++ l2) =
      ((runVAD (runVAD v l1).1 l2).1,
        (runVAD v l1).2 ++ (runVAD (runVAD v l1).1 l2).2) := by
  induction l1 generalizing v with
  | nil => simp [runVAD]
  | cons c cs ih =>
    simp only [List.cons_append, runVAD_cons, ih]
    simp [runVAD, List.append_assoc]

/-- Any chunk that does not trigger the stop, fed while speaking: no event,
the chunk is accumulated, the clock advances, the speaking flag stays up. -/
theorem processAudio_speaking_step (v : VADState) (c : List Nat)
    (hclosed : v.closed = false) (hs : v.isSpeaking = true)
    (hnostop : c.length = 0 ∨ energyExceeds c v.config.threshold = true ∨
      (energyExceeds c v.config.threshold = false ∧
        v.silentSamples + chunkDur v.config c < v.config.silenceDurationMs)) :
    (v.processAudio c).2 = [] ∧
      (v.processAudio c).1.isSpeaking = true ∧
      (v.processAudio c).1.closed = false ∧
      (v.processAudio c).1.config = v.config ∧
      (v.processAudio c).1.startMs = v.startMs ∧
      (v.processAudio c).1.audioBuffer = v.audioBuffer ++ c ∧
      (v.processAudio c).1.currentMs = v.currentMs + chunkDur v.config c := by
  rcases hnostop with hc | hhigh | ⟨hlow, hsil⟩
  · have hstep := processAudio_empty v c hc
    have hcnil : c = [] := List.length_eq_zero.mp hc
    subst hcnil
    rw [hstep]
    exact ⟨rfl, hs, hclosed, rfl, rfl, by simp, by simp [chunkDur_nil]⟩
  · by_cases hc : c.length = 0
    · have hstep := processAudio_empty v c hc
      have hcnil : c = [] := List.length_eq_zero.mp hc
      subst hcnil
      rw [hstep]
      exact ⟨rfl, hs, hclosed, rfl, rfl, by simp, by simp [chunkDur_nil]⟩
    · obtain ⟨h1, h2, h3, -, h5, h6, h7, h8⟩ :=
        processAudio_speaking_high v c hclosed hs hc hhigh
      exact ⟨h1, h2, h7, h8, h5, h3, h6⟩
  · by_cases hc : c.length = 0
    · have hstep := processAudio_empty v c hc
      have hcnil : c = [] := List.length_eq_zero.mp hc
      subst hcnil
      rw [hstep]
      exact ⟨rfl, hs, hclosed, rfl, rfl, by simp, by simp [chunkDur_nil]⟩
    · obtain ⟨h1, h2, h3, -, h5, h6, h7, h8⟩ :=
        processAudio_speaking_low_cont v c hclosed hs hc hlow hsil
      exact ⟨h1, h2, h7, h8, h5, h3, h6⟩

/-- The speaking phase: starting from a speaking state, either the run ends
still speaking with no event at all and the segment buffer having absorbed
every fed byte, or some chunk pushes the accumulated silence over the
threshold — and up to that chunk the only emitted event is the single
`speech_stopped` carrying start time, the clock at the stop, and the whole
accumulated segment, after which the speaking flag is down and the segment
buffer is empty. -/
theorem speakingRun (cs : List (List Nat)) (v : VADState)
    (hclosed : v.closed = false) (hs : v.isSpeaking = true) :
    ((runVAD v cs).2 = [] ∧ (runVAD v cs).1.isSpeaking = true ∧
        (runVAD v cs).1.audioBuffer = v.audioBuffer ++ cs.flatten) ∨
      (∃ k, k < cs.length ∧
        (runVAD v (cs.take (k+1))).2 =
          [{ type := VADEventType.speechStopped, startMs := v.startMs,
             endMs := v.currentMs + ((cs.take k).map (chunkDur v.config)).sum,
             audioData := v.audioBuffer ++ (cs.take (k+1)).flatten }] ∧
        (runVAD v (cs.take (k+1))).1.isSpeaking = false ∧
        (runVAD v (cs.take (k+1))).1.audioBuffer = []) := by
  induction cs generalizing v with
  | nil => exact Or.inl ⟨rfl, hs, by simp [runVAD]⟩
  | cons c cs ih =>
    by_cases hstop : c.length ≠ 0 ∧ energyExceeds c v.config.threshold = false ∧
        v.config.silenceDurationMs ≤ v.silentSamples + chunkDur v.config c
    · obtain ⟨hne, hlow, hsil⟩ := hstop
      obtain ⟨h1, h2, h3, -, -, -, -⟩ :=
        processAudio_speaking_stop v c hclosed hs hne hlow hsil
      refine Or.inr ⟨0, by simp, ?_, ?_, ?_⟩
      · simp [List.take, runVAD_cons, runVAD, h1]
      · simpa [List.take, runVAD_cons, runVAD] using h2
      · simpa [List.take, runVAD_cons, runVAD] using h3
    · have hnostop : c.length = 0 ∨ energyExceeds c v.config.threshold = true ∨
          (energyExceeds c v.config.threshold = false ∧
            v.silentSamples + chunkDur v.config c < v.config.silenceDurationMs) := by
        by_cases hc : c.length = 0
        · exact Or.inl hc
        · by_cases hhigh : energyExceeds c v.config.threshold = true
          · exact Or.inr (Or.inl hhigh)
          · refine Or.inr (Or.inr ⟨Bool.not_eq_true _ ▸ hhigh, ?_⟩)
            by_cases hsil : v.config.silenceDurationMs ≤ v.silentSamples + chunkDur v.config c
            · exact absurd ⟨hc, Bool.not_eq_true _ ▸ hhigh, hsil⟩ hstop
            · exact not_le.mp hsil
      obtain ⟨h1, h2, h3, h4, h5, h6, h7⟩ := processAudio_speaking_step v c hclosed hs hnostop
      rcases ih (v.processAudio c).1 h3 h2 with ⟨g1, g2, g3⟩ | ⟨k, hk, gt, gsp, gbuf⟩
      · refine Or.inl ⟨?_, g2, ?_⟩
        · rw [runVAD_cons]
          simp [h1, g1]
        · rw [runVAD_cons]
          simp only
          rw [g3, h6]
          simp [List.append_assoc]
      · refine Or.inr ⟨k + 1, by simpa using Nat.succ_lt_succ hk, ?_, ?_, ?_⟩
        · show (runVAD v (c :: cs.take (k+1))).2 = _
          rw [runVAD_cons]
          simp only
          rw [h1, gt, h4, h5, h6, h7]
          simp [List.take, List.append_assoc, add_assoc]
        · show (runVAD v (c :: cs.take (k+1))).1.isSpeaking = false
          rw [runVAD_cons]
          exact gsp
        · show (runVAD v (c :: cs.take (k+1))).1.audioBuffer = []
          rw [runVAD_cons]
          exact gbuf

theorem ifFloor_eq_max (a : Int) : (if a < 0 then 0 else a) = max 0 a := by
  rcases lt_or_le a 0 with h | h
  · simp [h, max_eq_left h.le]
  · simp [not_lt.mpr h, max_eq_right h]

/-- C6: from a quiet state with an empty segment buffer, a loud chunk emits
exactly one `speech_started` whose `start_ms` is the audio-time clock minus
`prefix_padding_ms` floored at 0; then either no stop occurs (the run stays
speaking, emits nothing further, and the segment buffer holds the trigger
chunk followed by every later chunk), or the accumulated silence reaches
`silence_duration_ms` at some chunk `k` and, up to and including that chunk,
exactly one `speech_stopped` is emitted, whose `audio_bytes` is the
concatenation of all chunks fed from the trigger chunk onward (bridging
silence included), whose `end_ms` is the clock at the stop, after which the
speaking flag is false and the segment buffer is empty; the full run's trace
decomposes around that stop. -/
theorem vad_utterance (v : VADState) (c0 : List Nat) (cs : List (List Nat))
    (hclosed : v.closed = false) (hns : v.isSpeaking = false)
    (hbuf : v.audioBuffer = [])
    (hne : c0.length ≠ 0) (hhigh : energyExceeds c0 v.config.threshold = true) :
    (v.processAudio c0).2 =
        [{ type := VADEventType.speechStarted,
           startMs := max 0 (v.currentMs - v.config.prefixPaddingMs),
           endMs := 0, audioData := [] }] ∧
      (((runVAD (v.processAudio c0).1 cs).2 = [] ∧
          (runVAD (v.processAudio c0).1 cs).1.isSpeaking = true ∧
          (runVAD (v.processAudio c0).1 cs).1.audioBuffer = c0 ++ cs.flatten) ∨
        (∃ k, k < cs.length ∧
          (runVAD (v.processAudio c0).1 (cs.take (k+1))).2 =
            [{ type := VADEventType.speechStopped, startMs := v.currentMs,
               endMs := v.currentMs + chunkDur v.config c0 +
                 ((cs.take k).map (chunkDur v.config)).sum,
               audioData := c0 ++ (cs.take (k+1)).flatten }] ∧
          (runVAD (v.processAudio c0).1 (cs.take (k+1))).1.isSpeaking = false ∧
          (runVAD (v.processAudio c0).1 (cs.take (k+1))).1.audioBuffer = [] ∧
          (runVAD (v.processAudio c0).1 cs).2 =
            (runVAD (v.processAudio c0).1 (cs.take (k+1))).2 ++
              (runVAD (runVAD (v.processAudio c0).1 (cs.take (k+1))).1
                (cs.drop (k+1))).2)) := by
  obtain ⟨h1, h2, h3, -, h5, h6, h7, h8⟩ := processAudio_trigger v c0 hclosed hns hne hhigh
  constructor
  · rw [h1, ifFloor_eq_max]
  · rcases speakingRun cs (v.processAudio c0).1 h7 h2 with ⟨g1, g2, g3⟩ | ⟨k, hk, gt, gsp, gbuf⟩
    · refine Or.inl ⟨g1, g2, ?_⟩
      rw [g3, h3, hbuf]
      simp
    · refine Or.inr ⟨k, hk, ?_, gsp, gbuf, ?_⟩
      · rw [gt, h5, h6, h3, h8, hbuf]
        simp [add_assoc]
      · have := runVAD_append (cs.take (k+1)) (cs.drop (k+1)) (v.processAudio c0).1
        rw [List.take_append_drop] at this
        rw [this]

/-- The witness scenario config: threshold 0, silence window 1 ms, sample
rate 1000 Hz. -/
def c6Cfg : VADConfig :=
  { type := "server_vad", threshold := 0, prefixPaddingMs := 300,
    silenceDurationMs := 1, idleTimeoutMs := 0, sampleRate := 1000, channels := 1 }

/-- Witness for `vad_utterance`: one loud sample then one silent sample. -/
theorem vad_utterance_witness :
    ((NewSimpleVADProvider (some c6Cfg)).processAudio [16, 0]).2 =
        [{ type := VADEventType.speechStarted,
           startMs := max 0 ((NewSimpleVADProvider (some c6Cfg)).currentMs -
             (NewSimpleVADProvider (some c6Cfg)).config.prefixPaddingMs),
           endMs := 0, audioData := [] }] ∧
      (((runVAD ((NewSimpleVADProvider (some c6Cfg)).processAudio [16, 0]).1 [[0, 0]]).2 = [] ∧
          (runVAD ((NewSimpleVADProvider (some c6Cfg)).processAudio
              [16, 0]).1 [[0, 0]]).1.isSpeaking = true ∧
          (runVAD ((NewSimpleVADProvider (some c6Cfg)).processAudio
              [16, 0]).1 [[0, 0]]).1.audioBuffer = [16, 0] ++ ([[0, 0]] : List (List Nat)).flatten) ∨
        (∃ k, k < ([[0, 0]] : List (List Nat)).length ∧
          (runVAD ((NewSimpleVADProvider (some c6Cfg)).processAudio [16, 0]).1
              (([[0, 0]] : List (List Nat)).take (k+1))).2 =
            [{ type := VADEventType.speechStopped,
               startMs := (NewSimpleVADProvider (some c6Cfg)).currentMs,
               endMs := (NewSimpleVADProvider (some c6Cfg)).currentMs +
                 chunkDur (NewSimpleVADProvider (some c6Cfg)).config [16, 0] +
                 ((([[0, 0]] : List (List Nat)).take k).map
                   (chunkDur (NewSimpleVADProvider (some c6Cfg)).config)).sum,
               audioData := [16, 0] ++ (([[0, 0]] : List (List Nat)).take (k+1)).flatten }] ∧
          (runVAD ((NewSimpleVADProvider (some c6Cfg)).processAudio [16, 0]).1
              (([[0, 0]] : List (List Nat)).take (k+1))).1.isSpeaking = false ∧
          (runVAD ((NewSimpleVADProvider (some c6Cfg)).processAudio [16, 0]).1
              (([[0, 0]] : List (List Nat)).take (k+1))).1.audioBuffer = [] ∧
          (runVAD ((NewSimpleVADProvider (some c6Cfg)).processAudio [16, 0]).1
              [[0, 0]]).2 =
            (runVAD ((NewSimpleVADProvider (some c6Cfg)).processAudio [16, 0]).1
                (([[0, 0]] : List (List Nat)).take (k+1))).2 ++
              (runVAD (runVAD ((NewSimpleVADProvider (some c6Cfg)).processAudio [16, 0]).1
                  (([[0, 0]] : List (List Nat)).take (k+1))).1
                (([[0, 0]] : List (List Nat)).drop (k+1))).2)) :=
  vad_utterance (NewSimpleVADProvider (some c6Cfg)) [16, 0] [[0, 0]]
    rfl rfl rfl (by decide) (by decide)

end Gribe
